import Mathlib

/-!
Shallow embedding of the Windows-Event-Monitor repository
(`src/windowseventmonitor/monitor_thread.py`,
`src/windowseventmonitor/event_monitor.py`, `src/monitor_events.py`).

Timestamps (Python `datetime` values and their `.timestamp()` floats) are
modelled as `Nat`; `datetime.now()` becomes an explicit `now : Nat`
parameter threaded through each operation.  Python `dict` /
`collections.defaultdict` values are modelled as insertion-ordered
association lists, matching CPython's insertion-order semantics.  File
system access (`open("config.json")`, `json.loads`) is modelled by a
function `FS : String → FileState`; a raised Python exception becomes
`Except.error` carrying the exception's name.
-/

set_option maxHeartbeats 1000000

/-- A parsed Windows event record as read from `win32evtlog.ReadEventLog`:
the fields `event.EventID` and `event.TimeGenerated` that the program uses. -/
structure WinEvent where
  EventID : Nat
  TimeGenerated : Nat
deriving DecidableEq, Repr

/-- The parsed contents of a JSON configuration file:
`{"Servers": {host: {logName: [ids]}}, "Event Descriptions": {logName: {idString: desc}}}`.
JSON object keys are unique, which callers record as `Nodup` hypotheses. -/
structure ParsedConfig where
  servers : List (String × List (String × List Nat))
  eventDescriptions : List (String × List (Nat × String))
deriving DecidableEq, Repr

/-- The state of a file on disk: missing (`open` raises), present but not
JSON (`json.loads` raises), or parsed successfully. -/
inductive FileState where
  | missing
  | unparseable
  | parsed (c : ParsedConfig)
deriving DecidableEq, Repr

/-- The file system seen by the program: file name to file state. -/
def FS : Type := String → FileState

/-- Association-list lookup, modelling Python `d.get(k)` / `k in d` on an
insertion-ordered dict. -/
def lookupKey {α β : Type} [DecidableEq α] (k : α) : List (α × β) → Option β
  | [] => none
  | (a, b) :: rest => if a = k then some b else lookupKey k rest

/-- `d[k] += 1` on a `defaultdict(int)`: bump the stored count, inserting
the key at the end with count 1 when absent (CPython insertion order). -/
def bumpCount (k : Nat) : List (Nat × Nat) → List (Nat × Nat)
  | [] => [(k, 1)]
  | (a, n) :: rest => if a = k then (a, n + 1) :: rest else (a, n) :: bumpCount k rest

/-- `d[k].append(v)` on a `defaultdict(list)`: append to the stored list,
inserting the key at the end with a singleton list when absent. -/
def appendTime (k : Nat) (v : Nat) : List (Nat × List Nat) → List (Nat × List Nat)
  | [] => [(k, [v])]
  | (a, l) :: rest => if a = k then (a, l ++ [v]) :: rest else (a, l) :: appendTime k v rest

/-- The mutable state of one `Monitor_Thread`
(`src/windowseventmonitor/monitor_thread.py`, `__init__`, lines 21-47).
The extra field `alive` models `threading.Thread.is_alive()`: set when the
thread is started, cleared when its target function returns. -/
structure Monitor_Thread where
  server : String
  log_type : String
  event_IDs : List Nat
  initial_start_timestamp : Nat
  latest_start : Nat
  start_date : Nat
  event_occurrence : List (Nat × Nat)
  times_event_generated : List (Nat × List Nat)
  total_processed : Nat
  failure_printed_to_console : Bool
  failures : Nat
  restart_time : Option Nat
  acknowledged_failure : Bool
  event_descriptions : List (Nat × String)
  alive : Bool
deriving DecidableEq, Repr

/-- `Monitor_Thread.__init__` (monitor_thread.py lines 21-47).  Reads the
fixed file name `"config.json"` (line 40) — not the path the enclosing
`Event_Monitor` was given — and indexes
`config_data_dict["Event Descriptions"][log_type]` (line 42), so a missing
file, unparseable JSON, or a missing log-type entry raises.  The kept
descriptions are filtered to the monitored `event_IDs` (lines 43-47). -/
def monitorThreadInit (fs : FS) (now : Nat) (server log_type : String)
    (event_IDs : List Nat) : Except String Monitor_Thread :=
  match fs "config.json" with
  | .missing => .error "FileNotFoundError"
  | .unparseable => .error "JSONDecodeError"
  | .parsed c =>
    match lookupKey log_type c.eventDescriptions with
    | none => .error "KeyError"
    | some descs =>
      .ok { server := server
            log_type := log_type
            event_IDs := event_IDs
            initial_start_timestamp := now
            latest_start := now
            start_date := now
            event_occurrence := []
            times_event_generated := []
            total_processed := 0
            failure_printed_to_console := false
            failures := 0
            restart_time := none
            acknowledged_failure := false
            event_descriptions := descs.filter (fun p => event_IDs.contains p.1)
            alive := false }

/-- `Monitor_Thread.event_fits_criteria` (monitor_thread.py lines 50-51):
`event.EventID in self.get_event_IDs() and event.TimeGenerated > self._latest_start`. -/
def event_fits_criteria (t : Monitor_Thread) (e : WinEvent) : Bool :=
  t.event_IDs.contains e.EventID && decide (t.latest_start < e.TimeGenerated)

/-- `Monitor_Thread.add_event_details` (monitor_thread.py lines 116-123). -/
def add_event_details (t : Monitor_Thread) (e : WinEvent) : Monitor_Thread :=
  { t with event_occurrence := bumpCount e.EventID t.event_occurrence
           times_event_generated := appendTime e.EventID e.TimeGenerated t.times_event_generated
           total_processed := t.total_processed + 1 }

/-- First statement of `add_event_details` (monitor_thread.py line 121):
`self._event_occurrence[event_obj.EventID] += 1` alone.  The thread's state
between lines 121 and 122 — visible to any concurrent reader. -/
def add_event_details_line121 (t : Monitor_Thread) (e : WinEvent) : Monitor_Thread :=
  { t with event_occurrence := bumpCount e.EventID t.event_occurrence }

/-- Second statement of `add_event_details` (monitor_thread.py line 122):
the timestamp append alone. -/
def add_event_details_line122 (t : Monitor_Thread) (e : WinEvent) : Monitor_Thread :=
  { t with times_event_generated := appendTime e.EventID e.TimeGenerated t.times_event_generated }

/-- Third statement of `add_event_details` (monitor_thread.py line 123):
the total increment alone. -/
def add_event_details_line123 (t : Monitor_Thread) : Monitor_Thread :=
  { t with total_processed := t.total_processed + 1 }

/-- `Monitor_Thread.add_thread_failure` (monitor_thread.py lines 126-127). -/
def add_thread_failure (t : Monitor_Thread) : Monitor_Thread :=
  { t with failures := t.failures + 1 }

/-- A worker death as produced by the code's two fatal paths in
`Monitor_Thread.monitor_events` (monitor_thread.py lines 86-92 and
98-103): on an `OpenEventLog` or `ReadEventLog` error the thread calls
`self.add_thread_failure()` and returns, so `is_alive()` becomes false. -/
def workerDeath (t : Monitor_Thread) : Monitor_Thread :=
  { add_thread_failure t with alive := false }

/-- One batch step of the polling loop in `Monitor_Thread.monitor_events`
(monitor_thread.py lines 105-113): filter the batch through
`event_fits_criteria`, then run `add_event_details` on each survivor. -/
def monitor_events_batch (t : Monitor_Thread) (events : List WinEvent) : Monitor_Thread :=
  (events.filter (event_fits_criteria t)).foldl add_event_details t

/-- The treatment one delivered record receives inside a batch: counted via
`add_event_details` when `event_fits_criteria` holds, otherwise untouched. -/
def processEvent (t : Monitor_Thread) (e : WinEvent) : Monitor_Thread :=
  if event_fits_criteria t e then add_event_details t e else t

/-- `Monitor_Thread.respawn_thread` (monitor_thread.py lines 54-76):
construct a fresh `Monitor_Thread` (running `__init__`, hence re-reading
`config.json`), then overwrite its aggregation fields with the dead
thread's, set `_latest_start` to now and `_restart_time` to now + delta.
The constructor's own `now`-derived fields are all overwritten. -/
def respawn_thread (fs : FS) (t : Monitor_Thread) (now delta : Nat) :
    Except String Monitor_Thread :=
  match monitorThreadInit fs now t.server t.log_type t.event_IDs with
  | .error e => .error e
  | .ok nt =>
    .ok { nt with latest_start := now
                  initial_start_timestamp := t.initial_start_timestamp
                  start_date := t.start_date
                  event_occurrence := t.event_occurrence
                  times_event_generated := t.times_event_generated
                  total_processed := t.total_processed
                  failures := t.failures
                  restart_time := some (now + delta) }

/-- `Monitor_Thread.get_total_event_occurrences` (monitor_thread.py lines
142-143): `self._event_occurrence[event_ID]` on a `defaultdict(int)`,
which reads 0 for an absent key. -/
def get_total_event_occurrences (t : Monitor_Thread) (event_ID : Nat) : Nat :=
  (lookupKey event_ID t.event_occurrence).getD 0

/-- `Monitor_Thread.get_event_occurrence_times` (monitor_thread.py lines
146-147): `self._times_event_generated.get(event_ID)` — `.get`, which
returns `None` (not an empty list) for a key with no recorded events. -/
def get_event_occurrence_times (t : Monitor_Thread) (event_ID : Nat) : Option (List Nat) :=
  lookupKey event_ID t.times_event_generated

/-- `Monitor_Thread.get_event_description` (monitor_thread.py lines
154-155): `self._event_descriptions.get(event_ID)`. -/
def get_event_description (t : Monitor_Thread) (event_ID : Nat) : Option String :=
  lookupKey event_ID t.event_descriptions

/-- Sum of the stored per-identifier counts: `sum(occurrenceCount.values())`. -/
def occSum (l : List (Nat × Nat)) : Nat :=
  (l.map Prod.snd).sum

/-- The aggregation invariant of the spec:
`totalProcessed == sum(occurrenceCount.values())`. -/
def aggInvariant (t : Monitor_Thread) : Prop :=
  t.total_processed = occSum t.event_occurrence

instance (t : Monitor_Thread) : Decidable (aggInvariant t) := by
  unfold aggInvariant; infer_instance

/-- One operation applied to a worker's aggregated state over its lifetime:
a record accepted by the worker loop, or a supervisor respawn. -/
inductive AggOp where
  | record (e : WinEvent)
  | respawn (fs : FS) (now delta : Nat)

/-- Apply one `AggOp` to a thread state. -/
def applyAggOp (t : Monitor_Thread) : AggOp → Except String Monitor_Thread
  | .record e => .ok (add_event_details t e)
  | .respawn fs now delta => respawn_thread fs t now delta

/-- Apply a sequence of `AggOp`s from left to right. -/
def applyAggOps (t : Monitor_Thread) : List AggOp → Except String Monitor_Thread
  | [] => .ok t
  | op :: rest =>
    match applyAggOp t op with
    | .error e => .error e
    | .ok t1 => applyAggOps t1 rest

/-- The target identity of a thread: the (host, logName) pair. -/
def threadKey (t : Monitor_Thread) : String × String :=
  (t.server, t.log_type)

/-- `thread.start()`: the execution unit begins running, `is_alive()`
becomes true. -/
def startThread (t : Monitor_Thread) : Monitor_Thread :=
  { t with alive := true }

/-- The mutable state of the `Event_Monitor` supervisor
(`src/windowseventmonitor/event_monitor.py`, `__init__`, lines 23-41),
together with the `start` timestamp of the export period kept as a local
variable of `run` (event_monitor.py lines 52 and 79-81). -/
structure Event_Monitor where
  active_threads : List Monitor_Thread
  threads_to_restart : List Monitor_Thread
  servers : List String
  retry_delta : Nat
  export_delta : Nat
  export_period_start : Nat
deriving DecidableEq, Repr

/-- Build the `Monitor_Thread` list of `Event_Monitor.__init__`
(event_monitor.py lines 31-38): one thread per (server, log_type) pair,
in configuration order; a constructor exception propagates. -/
def buildThreads (fs : FS) (now : Nat) :
    List (String × List (String × List Nat)) → Except String (List Monitor_Thread)
  | [] => .ok []
  | (server, logs) :: rest =>
    match buildServerThreads fs now server logs with
    | .error e => .error e
    | .ok ts =>
      match buildThreads fs now rest with
      | .error e => .error e
      | .ok more => .ok (ts ++ more)
where
  /-- Inner loop over one server's log types (event_monitor.py lines 35-38). -/
  buildServerThreads (fs : FS) (now : Nat) (server : String) :
      List (String × List Nat) → Except String (List Monitor_Thread)
    | [] => .ok []
    | (log_type, event_IDs) :: rest =>
      match monitorThreadInit fs now server log_type event_IDs with
      | .error e => .error e
      | .ok t =>
        match buildServerThreads fs now server rest with
        | .error e => .error e
        | .ok more => .ok (t :: more)

/-- All configured (host, logName) targets, in configuration order. -/
def configTargets (data : ParsedConfig) : List (String × String) :=
  data.servers.flatMap (fun p => p.2.map (fun q => (p.1, q.1)))

/-- `Event_Monitor.__init__` (event_monitor.py lines 23-41).  Opening or
parsing the configured file raises `FileNotFoundError("Config file not
found")` for any failure (bare `except`, lines 24-28); otherwise one
`Monitor_Thread` is constructed per (server, log_type) pair — each such
construction reads `"config.json"` and may itself raise. -/
def eventMonitorInit (fs : FS) (config_file : String) (now retry_delta export_delta : Nat) :
    Except String Event_Monitor :=
  match fs config_file with
  | .missing => .error "FileNotFoundError"
  | .unparseable => .error "FileNotFoundError"
  | .parsed data =>
    match buildThreads fs now data.servers with
    | .error e => .error e
    | .ok threads =>
      .ok { active_threads := threads
            threads_to_restart := []
            servers := data.servers.map Prod.fst
            retry_delta := retry_delta
            export_delta := export_delta
            export_period_start := now }

/-- `Event_Monitor.__init__` of the legacy script (`src/monitor_events.py`
lines 23-37): the bare `except` only prints, leaving the local `data`
unbound, so the following `data["Servers"]` raises `NameError`; with a
parsed file the thread list is built exactly as in the package version
(the legacy `Monitor_Thread.__init__`, lines 90-115, has the same
`config.json` read and the same failure behaviour). -/
def eventMonitorInitLegacy (fs : FS) (config_file : String) (now : Nat) :
    Except String (List Monitor_Thread) :=
  match fs config_file with
  | .missing => .error "NameError"
  | .unparseable => .error "NameError"
  | .parsed data => buildThreads fs now data.servers

/-- Phase one of the control-loop tick (event_monitor.py lines 56-60): for
every active thread found dead, append `respawn_thread` to the dead list,
then `add_thread_failure()` and mark `_acknowledged_failure` on the dead
thread itself.  Returns the mutated active list and the appended threads. -/
def tickPhase1 (fs : FS) (now delta : Nat) :
    List Monitor_Thread → Except String (List Monitor_Thread × List Monitor_Thread)
  | [] => .ok ([], [])
  | t :: ts =>
    if t.alive then
      match tickPhase1 fs now delta ts with
      | .error e => .error e
      | .ok (a, p) => .ok (t :: a, p)
    else
      match respawn_thread fs t now delta with
      | .error e => .error e
      | .ok nt =>
        match tickPhase1 fs now delta ts with
        | .error e => .error e
        | .ok (a, p) =>
          .ok ({ add_thread_failure t with acknowledged_failure := true } :: a, nt :: p)

/-- Phase three of the control-loop tick (event_monitor.py lines 64-74):
for every thread awaiting restart, emit the one-time failure notice
(setting `_failure_printed_to_console`), and when `_restart_time <
datetime.now()` clear the notice flag and `_restart_time`, start the
thread and append it to the active list.  Comparing `None` with a
datetime raises `TypeError`.  Returns the started appendees and the
mutated restart list (the started thread object appears in both, as in
Python, until phase four filters it out). -/
def tickPhase3 (now : Nat) :
    List Monitor_Thread → Except String (List Monitor_Thread × List Monitor_Thread)
  | [] => .ok ([], [])
  | t :: ts =>
    let t1 := if t.failure_printed_to_console then t
              else { t with failure_printed_to_console := true }
    match t1.restart_time with
    | none => .error "TypeError"
    | some rt =>
      if rt < now then
        let t2 := { t1 with failure_printed_to_console := false
                            restart_time := none
                            alive := true }
        match tickPhase3 now ts with
        | .error e => .error e
        | .ok (app, pend) => .ok (t2 :: app, t2 :: pend)
      else
        match tickPhase3 now ts with
        | .error e => .error e
        | .ok (app, pend) => .ok (app, t1 :: pend)

/-- One tick of the supervisor control loop, the body of `while True` in
`Event_Monitor.run` without the export step (event_monitor.py lines
56-76): observe deaths and schedule respawns, `remove_dead_threads`
(line 175-176), process the restart list, `remove_respawned_threads`
(lines 171-172). -/
def supervisorTick (fs : FS) (now : Nat) (m : Event_Monitor) : Except String Event_Monitor :=
  match tickPhase1 fs now m.retry_delta m.active_threads with
  | .error e => .error e
  | .ok (a1, newPend) =>
    let a2 := a1.filter (fun t => !t.acknowledged_failure)
    let pend1 := m.threads_to_restart ++ newPend
    match tickPhase3 now pend1 with
    | .error e => .error e
    | .ok (appends, pend2) =>
      .ok { m with active_threads := a2 ++ appends
                   threads_to_restart := pend2.filter (fun t => t.restart_time != none) }

/-- One per-identifier entry of the export snapshot (event_monitor.py
lines 114-129): `{"Total": ..., "Description": ..., "Timestamps": ...}`. -/
structure ExportEventEntry where
  Total : Nat
  Description : Option String
  Timestamps : Option (List Nat)
deriving DecidableEq, Repr

/-- One per-thread entry of the export snapshot (event_monitor.py lines
110-129). -/
structure ExportThreadEntry where
  threadStartTimestamp : Nat
  totalProcessedEvents : Nat
  totalThreadFailures : Nat
  eventIDs : List (Nat × ExportEventEntry)
deriving DecidableEq, Repr

/-- The whole export snapshot `data_dict` (event_monitor.py lines 95-131). -/
structure ExportData where
  exportTimestamp : Nat
  serverList : List String
  eventLogs : List (String × List (String × ExportThreadEntry))
deriving DecidableEq, Repr

/-- The per-thread snapshot entry built by `Event_Monitor.export_json`
(event_monitor.py lines 110-129), reading the thread's live fields through
the individual getters. -/
def buildThreadEntry (t : Monitor_Thread) : ExportThreadEntry :=
  { threadStartTimestamp := t.latest_start
    totalProcessedEvents := t.total_processed
    totalThreadFailures := t.failures
    eventIDs := t.event_IDs.map (fun event_ID =>
      (event_ID, { Total := get_total_event_occurrences t event_ID
                   Description := get_event_description t event_ID
                   Timestamps := get_event_occurrence_times t event_ID })) }

/-- `Event_Monitor.get_all_threads` (event_monitor.py lines 151-152). -/
def get_all_threads (m : Event_Monitor) : List Monitor_Thread :=
  m.active_threads ++ m.threads_to_restart

/-- The snapshot dictionary built by `Event_Monitor.export_json`
(event_monitor.py lines 95-131): per server, per log type, one thread
entry, over active and pending-restart threads alike. -/
def buildExportData (now : Nat) (m : Event_Monitor) : ExportData :=
  { exportTimestamp := now
    serverList := m.servers
    eventLogs := m.servers.map (fun s =>
      (s, ((get_all_threads m).filter (fun t => t.server == s)).map
            (fun t => (t.log_type, buildThreadEntry t)))) }

/-- The outcome of the snapshot file write in `export_json`
(event_monitor.py lines 138-144): success, a `PermissionError` (the only
exception class the `except` clause catches), or any other `OSError`. -/
inductive WriteResult where
  | success
  | permissionError
  | otherError
deriving DecidableEq, Repr

/-- `Event_Monitor.export_json` (event_monitor.py lines 93-144): builds
the snapshot from the threads' live fields, then writes it.  A
`PermissionError` is caught and printed (write skipped); any other write
error propagates out of the method.  No thread field is assigned, so the
monitoring state is returned as it came; the second component is the
written file content (`none` when the write failed). -/
def export_json (w : WriteResult) (now : Nat) (m : Event_Monitor) :
    Except String (Event_Monitor × Option ExportData) :=
  let d := buildExportData now m
  match w with
  | .success => .ok (m, some d)
  | .permissionError => .ok (m, none)
  | .otherError => .error "OSError"

/-- The fate of one iteration of `Event_Monitor.run`'s `while True` body:
either the loop keeps running with a new state, or an exception escaped
and the `except`/`finally` clauses (event_monitor.py lines 83-90) run one
final `export_json` and exit. -/
inductive LoopOutcome where
  | keepRunning (m : Event_Monitor)
  | exitAfterFinalExport (err : String) (finalSnapshot : ExportData)
deriving DecidableEq, Repr

/-- One full iteration of the `while True` body of `Event_Monitor.run`
(event_monitor.py lines 55-90): the tick, then — when the export period
has elapsed (line 79) — `export_json` and a reset of the period start
(lines 80-81).  Any exception reaches the `except Exception` handler,
whose `finally` performs a final `export_json` before `sys.exit(0)`. -/
def runLoopIter (fs : FS) (now : Nat) (w : WriteResult) (m : Event_Monitor) : LoopOutcome :=
  match supervisorTick fs now m with
  | .error e => .exitAfterFinalExport e (buildExportData now m)
  | .ok m1 =>
    if m.export_period_start + m.export_delta ≤ now then
      match export_json w now m1 with
      | .error e => .exitAfterFinalExport e (buildExportData now m1)
      | .ok (m2, _) => .keepRunning { m2 with export_period_start := now }
    else
      .keepRunning m1

/-- An environment step between two supervisor ticks: an adversarially
chosen subset of the active workers dies through the code's fatal paths
(`workerDeath`).  Which workers die is the oracle `sel`. -/
def envStep (sel : Monitor_Thread → Bool) (m : Event_Monitor) : Event_Monitor :=
  { m with active_threads := m.active_threads.map (fun t => if sel t then workerDeath t else t) }

/-- One scheduling input for a control-loop tick: which active workers
the environment has killed since the previous tick, and the tick's time. -/
structure TickInput where
  killSel : Monitor_Thread → Bool
  now : Nat

/-- Run a sequence of environment-step-then-tick rounds. -/
def runTicks (fs : FS) (m : Event_Monitor) : List TickInput → Except String Event_Monitor
  | [] => .ok m
  | i :: rest =>
    match supervisorTick fs i.now (envStep i.killSel m) with
    | .error e => .error e
    | .ok m1 => runTicks fs m1 rest

/-- The state `Event_Monitor.run` reaches just before entering its loop
(event_monitor.py line 53): every configured thread started. -/
def startAllThreads (m : Event_Monitor) : Event_Monitor :=
  { m with active_threads := m.active_threads.map startThread }

/-- The claim C5 handle invariant: every configured target is represented
by exactly one thread across the active and pending-restart lists, every
thread is for a configured target, and the bookkeeping flags are in the
states the loop maintains (no acknowledged thread in either list, every
pending thread carrying a restart time). -/
def handleInvariant (targets : List (String × String)) (m : Event_Monitor) : Prop :=
  (∀ k ∈ targets,
    ((m.active_threads ++ m.threads_to_restart).filter (fun t => threadKey t = k)).length = 1)
  ∧ (∀ t ∈ m.active_threads ++ m.threads_to_restart, threadKey t ∈ targets)
  ∧ (∀ t ∈ m.active_threads, t.acknowledged_failure = false)
  ∧ (∀ t ∈ m.threads_to_restart, t.acknowledged_failure = false)
  ∧ (∀ t ∈ m.threads_to_restart, t.restart_time ≠ none)

instance (targets : List (String × String)) (m : Event_Monitor) :
    Decidable (handleInvariant targets m) := by
  unfold handleInvariant; infer_instance

instance {ε α : Type} [DecidableEq ε] [DecidableEq α] : DecidableEq (Except ε α) := fun x y =>
  match x, y with
  | .error a, .error b =>
    if h : a = b then .isTrue (by rw [h]) else .isFalse (by simp [h])
  | .ok a, .ok b =>
    if h : a = b then .isTrue (by rw [h]) else .isFalse (by simp [h])
  | .error _, .ok _ => .isFalse (by simp)
  | .ok _, .error _ => .isFalse (by simp)

/-- The pending-restart handle that one supervisor tick at time `T` builds
from a dead worker `w` (when `config.json` parses and holds `descs` for
`w`'s log type): the `respawn_thread` result — aggregation fields
transplanted, `_latest_start := T`, `_restart_time := T + delta`, failures
already carrying the worker's own death increment — with the one-time
failure notice flag set by the same tick's restart-list pass. -/
def pendingReplacement (w : Monitor_Thread) (descs : List (Nat × String))
    (T delta : Nat) : Monitor_Thread :=
  { server := w.server, log_type := w.log_type, event_IDs := w.event_IDs,
    initial_start_timestamp := w.initial_start_timestamp, latest_start := T,
    start_date := w.start_date, event_occurrence := w.event_occurrence,
    times_event_generated := w.times_event_generated,
    total_processed := w.total_processed,
    failure_printed_to_console := true, failures := w.failures + 1,
    restart_time := some (T + delta), acknowledged_failure := false,
    event_descriptions := descs.filter (fun p => w.event_IDs.contains p.1),
    alive := false }

/-- The state of a pending handle `r` once its restart fires
(event_monitor.py lines 70-74): notice flag cleared, `_restart_time`
cleared, thread started. -/
def restartedThread (r : Monitor_Thread) : Monitor_Thread :=
  { r with failure_printed_to_console := false, restart_time := none, alive := true }

/-- A pending handle after the one-time failure notice of the restart-list
pass (event_monitor.py lines 65-67): the flag is set if it was not yet. -/
def noticeFlagged (r : Monitor_Thread) : Monitor_Thread :=
  if r.failure_printed_to_console then r
  else { r with failure_printed_to_console := true }

/-- A concrete parsed configuration used to instantiate theorems. -/
def sampleConfig : ParsedConfig :=
  { servers := [("SERVER1", [("System", [1111, 2222])])]
    eventDescriptions := [("System", [(1111, "power event"), (3333, "other event")])] }

/-- A concrete file system whose `config.json` parses to `sampleConfig`. -/
def sampleFS : FS :=
  fun name => if name = "config.json" then .parsed sampleConfig else .missing

/-- A concrete file system with no `config.json`. -/
def emptyFS : FS :=
  fun _ => .missing

/-!  Theorems.  -/

theorem lookupKey_filter {β : Type} (p : Nat × β → Bool) (k : Nat)
    (hp : ∀ b, p (k, b) = true) (l : List (Nat × β)) :
    lookupKey k (l.filter p) = lookupKey k l := by
  induction l with
  | nil => rfl
  | cons hd tl ih =>
    obtain ⟨a, b⟩ := hd
    rw [List.filter_cons]
    by_cases h : a = k
    · subst h
      simp [hp b, lookupKey, ih]
    · cases hpa : p (a, b)
      · simp [hpa, lookupKey, h, ih]
      · simp [hpa, lookupKey, h, ih]

theorem lookupKey_filter_of_mem {β : Type} (ids : List Nat) (k : Nat)
    (hk : k ∈ ids) (l : List (Nat × β)) :
    lookupKey k (l.filter (fun p => ids.contains p.1)) = lookupKey k l :=
  lookupKey_filter _ k
    (fun _ => (List.elem_eq_mem k ids).trans (decide_eq_true hk)) l

theorem occSum_bumpCount (k : Nat) (l : List (Nat × Nat)) :
    occSum (bumpCount k l) = occSum l + 1 := by
  induction l with
  | nil => simp [bumpCount, occSum]
  | cons hd tl ih =>
    obtain ⟨a, n⟩ := hd
    by_cases h : a = k
    · simp [bumpCount, h, occSum] at *
      omega
    · simp [bumpCount, h, occSum] at *
      omega

theorem lookupKey_bumpCount_self (k : Nat) (l : List (Nat × Nat)) :
    lookupKey k (bumpCount k l) = some ((lookupKey k l).getD 0 + 1) := by
  induction l with
  | nil => simp [bumpCount, lookupKey]
  | cons hd tl ih =>
    obtain ⟨a, n⟩ := hd
    by_cases h : a = k
    · simp [bumpCount, h, lookupKey]
    · simp [bumpCount, h, lookupKey, ih]

theorem lookupKey_appendTime_self (k v : Nat) (l : List (Nat × List Nat)) :
    lookupKey k (appendTime k v l) = some ((lookupKey k l).getD [] ++ [v]) := by
  induction l with
  | nil => simp [appendTime, lookupKey]
  | cons hd tl ih =>
    obtain ⟨a, n⟩ := hd
    by_cases h : a = k
    · simp [appendTime, h, lookupKey]
    · simp [appendTime, h, lookupKey, ih]

theorem monitorThreadInit_ok_iff (fs : FS) (now : Nat) (server log_type : String)
    (event_IDs : List Nat) (nt : Monitor_Thread) :
    monitorThreadInit fs now server log_type event_IDs = .ok nt ↔
    ∃ c descs, fs "config.json" = .parsed c
      ∧ lookupKey log_type c.eventDescriptions = some descs
      ∧ nt = { server := server, log_type := log_type, event_IDs := event_IDs,
               initial_start_timestamp := now, latest_start := now, start_date := now,
               event_occurrence := [], times_event_generated := [], total_processed := 0,
               failure_printed_to_console := false, failures := 0, restart_time := none,
               acknowledged_failure := false,
               event_descriptions := descs.filter (fun p => event_IDs.contains p.1),
               alive := false } := by
  constructor
  · intro h
    unfold monitorThreadInit at h
    split at h
    · simp at h
    · simp at h
    · next c heq =>
      split at h
      · simp at h
      · next descs hlk =>
        simp only [Except.ok.injEq] at h
        exact ⟨c, descs, heq, hlk, h.symm⟩
  · rintro ⟨c, descs, heq, hlk, hnt⟩
    subst hnt
    unfold monitorThreadInit
    rw [heq]
    simp [hlk]

theorem respawn_thread_ok_fields (fs : FS) (t : Monitor_Thread) (now delta : Nat)
    (r : Monitor_Thread) (h : respawn_thread fs t now delta = .ok r) :
    r.event_occurrence = t.event_occurrence
    ∧ r.times_event_generated = t.times_event_generated
    ∧ r.total_processed = t.total_processed
    ∧ r.failures = t.failures
    ∧ r.initial_start_timestamp = t.initial_start_timestamp
    ∧ r.start_date = t.start_date
    ∧ r.latest_start = now
    ∧ r.restart_time = some (now + delta)
    ∧ r.server = t.server
    ∧ r.log_type = t.log_type
    ∧ r.event_IDs = t.event_IDs
    ∧ r.acknowledged_failure = false
    ∧ r.failure_printed_to_console = false
    ∧ r.alive = false := by
  unfold respawn_thread at h
  cases hinit : monitorThreadInit fs now t.server t.log_type t.event_IDs with
  | error e => rw [hinit] at h; simp at h
  | ok nt =>
    rw [hinit] at h
    simp only [Except.ok.injEq] at h
    obtain ⟨c, descs, _, _, hnt⟩ := (monitorThreadInit_ok_iff fs now _ _ _ nt).mp hinit
    subst h
    subst hnt
    exact ⟨rfl, rfl, rfl, rfl, rfl, rfl, rfl, rfl, rfl, rfl, rfl, rfl, rfl, rfl⟩

theorem aggInvariant_add_event_details (t : Monitor_Thread) (e : WinEvent)
    (h : aggInvariant t) : aggInvariant (add_event_details t e) := by
  unfold aggInvariant add_event_details at *
  simp only [occSum_bumpCount]
  omega

theorem aggInvariant_respawn (fs : FS) (t : Monitor_Thread) (now delta : Nat)
    (r : Monitor_Thread) (hr : respawn_thread fs t now delta = .ok r)
    (h : aggInvariant t) : aggInvariant r := by
  obtain ⟨h1, _, h3, _⟩ := respawn_thread_ok_fields fs t now delta r hr
  unfold aggInvariant at *
  rw [h1, h3]
  exact h

/-- **C1.** For every sequence of operations a worker's aggregated state
undergoes — `add_event_details` calls for accepted records and
`respawn_thread` transplants — the invariant
`totalProcessed == sum(occurrenceCount.values())` is preserved: it holds
after every step of any such sequence that starts in a state satisfying
it (in particular after every `add_event_details` call and after every
respawn, since every prefix of the sequence is such a sequence). -/
theorem C1_total_processed_matches_occurrence_sum
    (t : Monitor_Thread) (ops : List AggOp) (tFinal : Monitor_Thread)
    (hinv : aggInvariant t) (hrun : applyAggOps t ops = .ok tFinal) :
    aggInvariant tFinal := by
  induction ops generalizing t with
  | nil =>
    unfold applyAggOps at hrun
    simp only [Except.ok.injEq] at hrun
    subst hrun
    exact hinv
  | cons op rest ih =>
    unfold applyAggOps at hrun
    cases op with
    | record e =>
      simp only [applyAggOp] at hrun
      exact ih (add_event_details t e) (aggInvariant_add_event_details t e hinv) hrun
    | respawn fs now delta =>
      simp only [applyAggOp] at hrun
      cases hstep : respawn_thread fs t now delta with
      | error e' => rw [hstep] at hrun; exact absurd hrun (by simp)
      | ok t1 =>
        rw [hstep] at hrun
        exact ih t1 (aggInvariant_respawn fs t now delta t1 hstep hinv) hrun

/-- Witness for C1: a concrete worker trace — two accepted records, a
respawn, one more record — keeps the invariant. -/
theorem C1_total_processed_matches_occurrence_sum_witness :
    aggInvariant
      { server := "SERVER1", log_type := "System", event_IDs := [1111, 2222],
        initial_start_timestamp := 0, latest_start := 10, start_date := 0,
        event_occurrence := [(1111, 2), (2222, 1)],
        times_event_generated := [(1111, [5, 20]), (2222, [7])],
        total_processed := 3, failure_printed_to_console := false, failures := 0,
        restart_time := some 310, acknowledged_failure := false,
        event_descriptions := [(1111, "power event")], alive := false } :=
  C1_total_processed_matches_occurrence_sum
    { server := "SERVER1", log_type := "System", event_IDs := [1111, 2222],
      initial_start_timestamp := 0, latest_start := 0, start_date := 0,
      event_occurrence := [], times_event_generated := [], total_processed := 0,
      failure_printed_to_console := false, failures := 0, restart_time := none,
      acknowledged_failure := false, event_descriptions := [(1111, "power event")],
      alive := true }
    [AggOp.record ⟨1111, 5⟩, AggOp.record ⟨2222, 7⟩,
     AggOp.respawn sampleFS 10 300, AggOp.record ⟨1111, 20⟩]
    _ (by decide) (by decide)

theorem event_fits_criteria_iff (t : Monitor_Thread) (e : WinEvent) :
    event_fits_criteria t e = true ↔
      e.EventID ∈ t.event_IDs ∧ t.latest_start < e.TimeGenerated := by
  unfold event_fits_criteria
  simp [List.contains]

theorem event_fits_criteria_after_add (t : Monitor_Thread) (e e2 : WinEvent) :
    event_fits_criteria (add_event_details t e) e2 = event_fits_criteria t e2 := rfl

theorem monitor_events_batch_eq_foldl (es : List WinEvent) :
    ∀ t, monitor_events_batch t es = es.foldl processEvent t := by
  induction es with
  | nil => intro t; rfl
  | cons e es ih =>
    intro t
    unfold monitor_events_batch
    rw [List.filter_cons]
    by_cases h : event_fits_criteria t e = true
    · rw [if_pos (by rw [h]), List.foldl_cons]
      have hfix : List.filter (event_fits_criteria t) es
          = List.filter (event_fits_criteria (add_event_details t e)) es := rfl
      rw [hfix]
      rw [List.foldl_cons]
      have hpe : processEvent t e = add_event_details t e := by
        unfold processEvent; rw [if_pos h]
      rw [← hpe] at *
      exact ih (processEvent t e)
    · rw [if_neg (by simpa using h)]
      have hpe : processEvent t e = t := by
        unfold processEvent; rw [if_neg h]
      rw [List.foldl_cons, hpe]
      exact ih t

/-- **C3.** A record delivered to a running worker is counted — its
occurrence count bumped, its generation timestamp appended, the total
incremented — exactly when `event_fits_criteria` accepts it, and
`event_fits_criteria` holds exactly when the record's identifier is among
the monitored `event_IDs` and its generation time is strictly after the
current execution's `_latest_start`; a record with
`TimeGenerated <= _latest_start` leaves the state untouched.  The final
conjunct ties the per-record treatment to the source's batch loop. -/
theorem C3_record_counted_iff_criteria (t : Monitor_Thread) (e : WinEvent) :
    (event_fits_criteria t e = true ↔
      (e.EventID ∈ t.event_IDs ∧ t.latest_start < e.TimeGenerated))
    ∧ (event_fits_criteria t e = true →
        processEvent t e = add_event_details t e
        ∧ get_total_event_occurrences (processEvent t e) e.EventID
            = get_total_event_occurrences t e.EventID + 1
        ∧ get_event_occurrence_times (processEvent t e) e.EventID
            = some ((get_event_occurrence_times t e.EventID).getD [] ++ [e.TimeGenerated])
        ∧ (processEvent t e).total_processed = t.total_processed + 1)
    ∧ (event_fits_criteria t e = false → processEvent t e = t)
    ∧ (e.TimeGenerated ≤ t.latest_start → processEvent t e = t)
    ∧ (∀ events, monitor_events_batch t events = events.foldl processEvent t) := by
  refine ⟨event_fits_criteria_iff t e, ?_, ?_, ?_, fun es => monitor_events_batch_eq_foldl es t⟩
  · intro h
    have hpe : processEvent t e = add_event_details t e := by
      unfold processEvent; rw [if_pos h]
    refine ⟨hpe, ?_, ?_, ?_⟩
    · rw [hpe]
      unfold get_total_event_occurrences add_event_details
      simp [lookupKey_bumpCount_self]
    · rw [hpe]
      unfold get_event_occurrence_times add_event_details
      simp [lookupKey_appendTime_self]
    · rw [hpe]; rfl
  · intro h
    unfold processEvent
    rw [if_neg (by simp [h])]
  · intro h
    unfold processEvent
    have : event_fits_criteria t e = false := by
      unfold event_fits_criteria
      have : decide (t.latest_start < e.TimeGenerated) = false := by
        simp
        omega
      simp [this]
    rw [if_neg (by simp [this])]

/-- Witness for C3: a matching in-set, after-start record is counted; a
record timestamped at the execution start is not. -/
theorem C3_record_counted_iff_criteria_witness :
    processEvent
      { server := "SERVER1", log_type := "System", event_IDs := [1111, 2222],
        initial_start_timestamp := 0, latest_start := 3, start_date := 0,
        event_occurrence := [], times_event_generated := [], total_processed := 0,
        failure_printed_to_console := false, failures := 0, restart_time := none,
        acknowledged_failure := false, event_descriptions := [(1111, "power event")],
        alive := true } ⟨1111, 5⟩
      = add_event_details
        { server := "SERVER1", log_type := "System", event_IDs := [1111, 2222],
          initial_start_timestamp := 0, latest_start := 3, start_date := 0,
          event_occurrence := [], times_event_generated := [], total_processed := 0,
          failure_printed_to_console := false, failures := 0, restart_time := none,
          acknowledged_failure := false, event_descriptions := [(1111, "power event")],
          alive := true } ⟨1111, 5⟩
    ∧ processEvent
      { server := "SERVER1", log_type := "System", event_IDs := [1111, 2222],
        initial_start_timestamp := 0, latest_start := 3, start_date := 0,
        event_occurrence := [], times_event_generated := [], total_processed := 0,
        failure_printed_to_console := false, failures := 0, restart_time := none,
        acknowledged_failure := false, event_descriptions := [(1111, "power event")],
        alive := true } ⟨1111, 3⟩
      = { server := "SERVER1", log_type := "System", event_IDs := [1111, 2222],
          initial_start_timestamp := 0, latest_start := 3, start_date := 0,
          event_occurrence := [], times_event_generated := [], total_processed := 0,
          failure_printed_to_console := false, failures := 0, restart_time := none,
          acknowledged_failure := false, event_descriptions := [(1111, "power event")],
          alive := true } :=
  ⟨((C3_record_counted_iff_criteria _ ⟨1111, 5⟩).2.1 (by decide)).1,
   (C3_record_counted_iff_criteria _ ⟨1111, 3⟩).2.2.2.1 (by decide)⟩

/-- **C2.** One observed death and its respawn step: a worker `w` dies
through the code's fatal paths (`workerDeath`, which itself increments
`_failures` — monitor_thread.py lines 91 and 102), and the supervisor tick
(event_monitor.py lines 56-60) builds the replacement via
`respawn_thread`.  The replacement carried in the pending-restart list has
the dead worker's `occurrenceCount`, `occurrenceTimestamps`,
`totalProcessed` and `initialStartTime`, a `failureCount` of exactly the
pre-death value plus 1 (the supervisor's own `add_thread_failure` lands on
the discarded handle after the copy), and a strictly advanced
`latestStartTime`. -/
theorem C2_respawn_transplants_state_and_adds_one_failure
    (fs : FS) (w : Monitor_Thread) (now delta : Nat) (m mAfter : Event_Monitor)
    (hma : m.active_threads = [workerDeath w])
    (hmp : m.threads_to_restart = [])
    (hmd : m.retry_delta = delta)
    (htick : supervisorTick fs now m = .ok mAfter)
    (hlater : w.latest_start < now) :
    ∃ r, mAfter.active_threads = [] ∧ mAfter.threads_to_restart = [r]
      ∧ r.event_occurrence = w.event_occurrence
      ∧ r.times_event_generated = w.times_event_generated
      ∧ r.total_processed = w.total_processed
      ∧ r.initial_start_timestamp = w.initial_start_timestamp
      ∧ r.failures = w.failures + 1
      ∧ w.latest_start < r.latest_start
      ∧ r.restart_time = some (now + delta) := by
  unfold supervisorTick at htick
  rw [hma, hmp, hmd] at htick
  have halive : (workerDeath w).alive = false := rfl
  cases hresp : respawn_thread fs (workerDeath w) now delta with
  | error e =>
    simp only [tickPhase1, halive, Bool.false_eq_true, if_false, hresp] at htick
    exact absurd htick (by simp)
  | ok nt =>
    obtain ⟨hocc, htimes, htot, hfail, hinit, _, hlatest, hrt, _, _, _, hack, hfp, _⟩ :=
      respawn_thread_ok_fields fs (workerDeath w) now delta nt hresp
    have hnr : ¬ (now + delta < now) := by omega
    simp only [tickPhase1, halive, Bool.false_eq_true, if_false, hresp] at htick
    simp only [List.nil_append, List.filter] at htick
    simp only [tickPhase3, hfp, Bool.false_eq_true, if_false, hrt, hnr] at htick
    simp only [List.filter, hrt] at htick
    simp only [Except.ok.injEq] at htick
    subst htick
    refine ⟨{ nt with failure_printed_to_console := true }, ?_, ?_, ?_, ?_, ?_, ?_, ?_, ?_, ?_⟩
    · simp
    · rw [show ((some (now + delta) : Option Nat) != none) = true from rfl]
      rw [hrt]
    · simpa using hocc
    · simpa using htimes
    · simpa using htot
    · simpa using hinit
    · simpa using hfail
    · simpa [hlatest] using hlater
    · simpa using hrt

/-- Witness for C2: a concrete dead worker (2 prior failures, one counted
event) is respawned at tick time 100 with retry delta 300. -/
theorem C2_respawn_transplants_state_and_adds_one_failure_witness :
    ∃ r,
      (Event_Monitor.active_threads
        { active_threads := [],
          threads_to_restart :=
            [{ server := "SERVER1", log_type := "System", event_IDs := [1111, 2222],
               initial_start_timestamp := 0, latest_start := 100, start_date := 0,
               event_occurrence := [(1111, 1)], times_event_generated := [(1111, [5])],
               total_processed := 1, failure_printed_to_console := true, failures := 3,
               restart_time := some 400, acknowledged_failure := false,
               event_descriptions := [(1111, "power event")], alive := false }],
          servers := ["SERVER1"], retry_delta := 300, export_delta := 3600,
          export_period_start := 0 }) = []
      ∧ (Event_Monitor.threads_to_restart
        { active_threads := [],
          threads_to_restart :=
            [{ server := "SERVER1", log_type := "System", event_IDs := [1111, 2222],
               initial_start_timestamp := 0, latest_start := 100, start_date := 0,
               event_occurrence := [(1111, 1)], times_event_generated := [(1111, [5])],
               total_processed := 1, failure_printed_to_console := true, failures := 3,
               restart_time := some 400, acknowledged_failure := false,
               event_descriptions := [(1111, "power event")], alive := false }],
          servers := ["SERVER1"], retry_delta := 300, export_delta := 3600,
          export_period_start := 0 }) = [r]
      ∧ r.event_occurrence = [(1111, 1)]
      ∧ r.times_event_generated = [(1111, [5])]
      ∧ r.total_processed = 1
      ∧ r.initial_start_timestamp = 0
      ∧ r.failures = 2 + 1
      ∧ 0 < r.latest_start
      ∧ r.restart_time = some (100 + 300) :=
  C2_respawn_transplants_state_and_adds_one_failure sampleFS
    { server := "SERVER1", log_type := "System", event_IDs := [1111, 2222],
      initial_start_timestamp := 0, latest_start := 0, start_date := 0,
      event_occurrence := [(1111, 1)], times_event_generated := [(1111, [5])],
      total_processed := 1, failure_printed_to_console := false, failures := 2,
      restart_time := none, acknowledged_failure := false,
      event_descriptions := [(1111, "power event")], alive := true }
    100 300
    { active_threads :=
        [workerDeath
          { server := "SERVER1", log_type := "System", event_IDs := [1111, 2222],
            initial_start_timestamp := 0, latest_start := 0, start_date := 0,
            event_occurrence := [(1111, 1)], times_event_generated := [(1111, [5])],
            total_processed := 1, failure_printed_to_console := false, failures := 2,
            restart_time := none, acknowledged_failure := false,
            event_descriptions := [(1111, "power event")], alive := true }],
      threads_to_restart := [], servers := ["SERVER1"], retry_delta := 300,
      export_delta := 3600, export_period_start := 0 }
    _ (by decide) (by decide) (by decide) (by decide) (by decide)

theorem lookupKey_map_self {β : Type} (f : Nat → β) (k : Nat) (l : List Nat) (h : k ∈ l) :
    lookupKey k (l.map (fun a => (a, f a))) = some (f k) := by
  induction l with
  | nil => cases h
  | cons a rest ih =>
    by_cases hak : a = k
    · subst hak
      simp [lookupKey]
    · rcases List.mem_cons.mp h with h1 | h2
      · exact absurd h1.symm hak
      · simp [lookupKey, hak, ih h2]

/-- Counterexample for C4: a freshly constructed target (no record ever
counted) exports, for monitored identifier 1111, a `Timestamps` value of
`None` — not the empty list the claim asserts — because
`get_event_occurrence_times` uses `dict.get` on a map with no entry. -/
theorem C4_counterexample :
    monitorThreadInit sampleFS 0 "SERVER1" "System" [1111, 2222]
      = .ok { server := "SERVER1", log_type := "System", event_IDs := [1111, 2222],
              initial_start_timestamp := 0, latest_start := 0, start_date := 0,
              event_occurrence := [], times_event_generated := [], total_processed := 0,
              failure_printed_to_console := false, failures := 0, restart_time := none,
              acknowledged_failure := false,
              event_descriptions := [(1111, "power event")], alive := false }
    ∧ (buildThreadEntry
        { server := "SERVER1", log_type := "System", event_IDs := [1111, 2222],
          initial_start_timestamp := 0, latest_start := 0, start_date := 0,
          event_occurrence := [], times_event_generated := [], total_processed := 0,
          failure_printed_to_console := false, failures := 0, restart_time := none,
          acknowledged_failure := false,
          event_descriptions := [(1111, "power event")], alive := false }).eventIDs
      = [(1111, { Total := 0, Description := some "power event", Timestamps := none }),
         (2222, { Total := 0, Description := none, Timestamps := none })]
    ∧ get_event_occurrence_times
        { server := "SERVER1", log_type := "System", event_IDs := [1111, 2222],
          initial_start_timestamp := 0, latest_start := 0, start_date := 0,
          event_occurrence := [], times_event_generated := [], total_processed := 0,
          failure_printed_to_console := false, failures := 0, restart_time := none,
          acknowledged_failure := false,
          event_descriptions := [(1111, "power event")], alive := false } 1111
      ≠ some [] := by
  refine ⟨by decide, by decide, by decide⟩

/-- **C4 (amended).** For a target on which no record has ever been
counted, the export snapshot entry of every monitored identifier has a
`Total` of 0 and a `Description` equal to the configured description when
one exists and null otherwise — but its `Timestamps` value is null
(`None`), not an empty list, since `get_event_occurrence_times` uses
`.get` on an empty map. -/
theorem C4_fresh_target_export_entry
    (t : Monitor_Thread) (descs : List (Nat × String))
    (hocc : t.event_occurrence = [])
    (htimes : t.times_event_generated = [])
    (hdesc : t.event_descriptions = descs.filter (fun p => t.event_IDs.contains p.1))
    (event_ID : Nat) (hid : event_ID ∈ t.event_IDs) :
    lookupKey event_ID (buildThreadEntry t).eventIDs
      = some { Total := 0, Description := lookupKey event_ID descs, Timestamps := none } := by
  unfold buildThreadEntry
  rw [lookupKey_map_self _ event_ID t.event_IDs hid]
  unfold get_total_event_occurrences get_event_occurrence_times get_event_description
  rw [hocc, htimes, hdesc, lookupKey_filter_of_mem t.event_IDs event_ID hid]
  rfl

/-- Witness for C4 (amended): concrete fresh target, identifier 1111 has a
configured description, identifier 2222 does not. -/
theorem C4_fresh_target_export_entry_witness :
    lookupKey 1111
      (buildThreadEntry
        { server := "SERVER1", log_type := "System", event_IDs := [1111, 2222],
          initial_start_timestamp := 0, latest_start := 0, start_date := 0,
          event_occurrence := [], times_event_generated := [], total_processed := 0,
          failure_printed_to_console := false, failures := 0, restart_time := none,
          acknowledged_failure := false,
          event_descriptions := [(1111, "power event")], alive := false }).eventIDs
      = some { Total := 0,
               Description := lookupKey 1111 [(1111, "power event"), (3333, "other event")],
               Timestamps := none } :=
  C4_fresh_target_export_entry
    { server := "SERVER1", log_type := "System", event_IDs := [1111, 2222],
      initial_start_timestamp := 0, latest_start := 0, start_date := 0,
      event_occurrence := [], times_event_generated := [], total_processed := 0,
      failure_printed_to_console := false, failures := 0, restart_time := none,
      acknowledged_failure := false,
      event_descriptions := [(1111, "power event")], alive := false }
    [(1111, "power event"), (3333, "other event")]
    (by decide) (by decide) (by decide) 1111 (by decide)

/-- Counterexample for C9: `export_json` reads the thread's live fields
through per-field getters (event_monitor.py lines 110-128); there is no
snapshot accessor.  At the state between lines 121 and 122 of a concurrent
`add_event_details` (modelled by `add_event_details_line121`), the export
entry for identifier 1111 shows `Total = 1` with `Timestamps = None` — a
torn update, a count incremented without its corresponding timestamp. -/
theorem C9_counterexample :
    add_event_details
        { server := "SERVER1", log_type := "System", event_IDs := [1111, 2222],
          initial_start_timestamp := 0, latest_start := 0, start_date := 0,
          event_occurrence := [], times_event_generated := [], total_processed := 0,
          failure_printed_to_console := false, failures := 0, restart_time := none,
          acknowledged_failure := false,
          event_descriptions := [(1111, "power event")], alive := true } ⟨1111, 5⟩
      = add_event_details_line123
          (add_event_details_line122
            (add_event_details_line121
              { server := "SERVER1", log_type := "System", event_IDs := [1111, 2222],
                initial_start_timestamp := 0, latest_start := 0, start_date := 0,
                event_occurrence := [], times_event_generated := [], total_processed := 0,
                failure_printed_to_console := false, failures := 0, restart_time := none,
                acknowledged_failure := false,
                event_descriptions := [(1111, "power event")], alive := true } ⟨1111, 5⟩)
            ⟨1111, 5⟩)
    ∧ lookupKey 1111
        (buildThreadEntry
          (add_event_details_line121
            { server := "SERVER1", log_type := "System", event_IDs := [1111, 2222],
              initial_start_timestamp := 0, latest_start := 0, start_date := 0,
              event_occurrence := [], times_event_generated := [], total_processed := 0,
              failure_printed_to_console := false, failures := 0, restart_time := none,
              acknowledged_failure := false,
              event_descriptions := [(1111, "power event")], alive := true } ⟨1111, 5⟩)).eventIDs
      = some { Total := 1, Description := some "power event", Timestamps := none } := by
  refine ⟨by decide, by decide⟩

/-- **C9 (amended).** The exporter has no atomic snapshot accessor: it
reads the live mutable fields piecemeal, and `add_event_details` applies
its three mutations as three separate statements.  Consequently an export
interleaved between the count increment (line 121) and the timestamp
append (line 122) observes, for the record's identifier, the occurrence
count already incremented while the timestamp list is still the old one —
the torn update the spec's snapshot requirement was meant to exclude. -/
theorem C9_export_can_observe_torn_update (t : Monitor_Thread) (e : WinEvent)
    (hid : e.EventID ∈ t.event_IDs) :
    add_event_details t e
      = add_event_details_line123 (add_event_details_line122 (add_event_details_line121 t e) e)
    ∧ lookupKey e.EventID (buildThreadEntry (add_event_details_line121 t e)).eventIDs
        = some { Total := get_total_event_occurrences t e.EventID + 1
                 Description := get_event_description t e.EventID
                 Timestamps := get_event_occurrence_times t e.EventID }
    ∧ (add_event_details_line121 t e).total_processed = t.total_processed := by
  refine ⟨rfl, ?_, rfl⟩
  show lookupKey e.EventID
      (t.event_IDs.map (fun event_ID =>
        (event_ID,
          ({ Total := get_total_event_occurrences (add_event_details_line121 t e) event_ID
             Description := get_event_description (add_event_details_line121 t e) event_ID
             Timestamps := get_event_occurrence_times (add_event_details_line121 t e) event_ID }
            : ExportEventEntry))))
      = some { Total := get_total_event_occurrences t e.EventID + 1
               Description := get_event_description t e.EventID
               Timestamps := get_event_occurrence_times t e.EventID }
  rw [lookupKey_map_self _ e.EventID _ hid]
  unfold get_total_event_occurrences get_event_occurrence_times get_event_description
    add_event_details_line121
  simp [lookupKey_bumpCount_self]

/-- Witness for C9 (amended): the torn observation at a concrete state
holding one prior event for identifier 1111. -/
theorem C9_export_can_observe_torn_update_witness :
    lookupKey 1111
      (buildThreadEntry
        (add_event_details_line121
          { server := "SERVER1", log_type := "System", event_IDs := [1111, 2222],
            initial_start_timestamp := 0, latest_start := 0, start_date := 0,
            event_occurrence := [(1111, 1)], times_event_generated := [(1111, [5])],
            total_processed := 1, failure_printed_to_console := false, failures := 0,
            restart_time := none, acknowledged_failure := false,
            event_descriptions := [(1111, "power event")], alive := true } ⟨1111, 9⟩)).eventIDs
      = some { Total := 1 + 1, Description := some "power event", Timestamps := some [5] } :=
  (C9_export_can_observe_torn_update
    { server := "SERVER1", log_type := "System", event_IDs := [1111, 2222],
      initial_start_timestamp := 0, latest_start := 0, start_date := 0,
      event_occurrence := [(1111, 1)], times_event_generated := [(1111, [5])],
      total_processed := 1, failure_printed_to_console := false, failures := 0,
      restart_time := none, acknowledged_failure := false,
      event_descriptions := [(1111, "power event")], alive := true } ⟨1111, 9⟩
    (by decide)).2.1

/-- Counterexample for C7: at a tick whose export period has elapsed, a
snapshot write failure that is not a `PermissionError` (the only class
`export_json` catches, event_monitor.py line 143) escapes the loop: the
outcome is exit-after-final-export, not a continuing loop.  The state has
one healthy active worker and is otherwise quiescent. -/
theorem C7_counterexample :
    runLoopIter sampleFS 4000 WriteResult.otherError
      { active_threads :=
          [{ server := "SERVER1", log_type := "System", event_IDs := [1111, 2222],
             initial_start_timestamp := 0, latest_start := 0, start_date := 0,
             event_occurrence := [(1111, 1)], times_event_generated := [(1111, [5])],
             total_processed := 1, failure_printed_to_console := false, failures := 0,
             restart_time := none, acknowledged_failure := false,
             event_descriptions := [(1111, "power event")], alive := true }],
        threads_to_restart := [], servers := ["SERVER1"], retry_delta := 300,
        export_delta := 3600, export_period_start := 0 }
      = LoopOutcome.exitAfterFinalExport "OSError"
          (buildExportData 4000
            { active_threads :=
                [{ server := "SERVER1", log_type := "System", event_IDs := [1111, 2222],
                   initial_start_timestamp := 0, latest_start := 0, start_date := 0,
                   event_occurrence := [(1111, 1)], times_event_generated := [(1111, [5])],
                   total_processed := 1, failure_printed_to_console := false, failures := 0,
                   restart_time := none, acknowledged_failure := false,
                   event_descriptions := [(1111, "power event")], alive := true }],
              threads_to_restart := [], servers := ["SERVER1"], retry_delta := 300,
              export_delta := 3600, export_period_start := 0 }) := by
  decide

/-- **C7 (amended).** A `PermissionError` on the snapshot write is caught:
the export returns with nothing written, every thread field untouched, and
the loop continues with only the export-period start reset — so the export
is attempted again one export period later.  Any other write error is not
caught: it escapes the loop and triggers the final-export-then-exit path. -/
theorem C7_permission_error_logged_state_unchanged_loop_continues
    (fs : FS) (now : Nat) (m m1 : Event_Monitor)
    (htick : supervisorTick fs now m = .ok m1)
    (hdue : m.export_period_start + m.export_delta ≤ now) :
    export_json .permissionError now m1 = .ok (m1, none)
    ∧ runLoopIter fs now .permissionError m
        = .keepRunning { m1 with export_period_start := now }
    ∧ runLoopIter fs now .otherError m
        = .exitAfterFinalExport "OSError" (buildExportData now m1) := by
  refine ⟨rfl, ?_, ?_⟩
  · simp only [runLoopIter, htick, hdue, if_true]
    rfl
  · simp only [runLoopIter, htick, hdue, if_true]
    rfl

/-- Witness for C7 (amended): concrete quiescent state, export due. -/
theorem C7_permission_error_logged_state_unchanged_loop_continues_witness :
    export_json .permissionError 4000
      { active_threads :=
          [{ server := "SERVER1", log_type := "System", event_IDs := [1111, 2222],
             initial_start_timestamp := 0, latest_start := 0, start_date := 0,
             event_occurrence := [(1111, 1)], times_event_generated := [(1111, [5])],
             total_processed := 1, failure_printed_to_console := false, failures := 0,
             restart_time := none, acknowledged_failure := false,
             event_descriptions := [(1111, "power event")], alive := true }],
        threads_to_restart := [], servers := ["SERVER1"], retry_delta := 300,
        export_delta := 3600, export_period_start := 0 }
      = .ok
        ({ active_threads :=
             [{ server := "SERVER1", log_type := "System", event_IDs := [1111, 2222],
                initial_start_timestamp := 0, latest_start := 0, start_date := 0,
                event_occurrence := [(1111, 1)], times_event_generated := [(1111, [5])],
                total_processed := 1, failure_printed_to_console := false, failures := 0,
                restart_time := none, acknowledged_failure := false,
                event_descriptions := [(1111, "power event")], alive := true }],
           threads_to_restart := [], servers := ["SERVER1"], retry_delta := 300,
           export_delta := 3600, export_period_start := 0 }, none) :=
  (C7_permission_error_logged_state_unchanged_loop_continues sampleFS 4000
    { active_threads :=
        [{ server := "SERVER1", log_type := "System", event_IDs := [1111, 2222],
           initial_start_timestamp := 0, latest_start := 0, start_date := 0,
           event_occurrence := [(1111, 1)], times_event_generated := [(1111, [5])],
           total_processed := 1, failure_printed_to_console := false, failures := 0,
           restart_time := none, acknowledged_failure := false,
           event_descriptions := [(1111, "power event")], alive := true }],
      threads_to_restart := [], servers := ["SERVER1"], retry_delta := 300,
      export_delta := 3600, export_period_start := 0 }
    { active_threads :=
        [{ server := "SERVER1", log_type := "System", event_IDs := [1111, 2222],
           initial_start_timestamp := 0, latest_start := 0, start_date := 0,
           event_occurrence := [(1111, 1)], times_event_generated := [(1111, [5])],
           total_processed := 1, failure_printed_to_console := false, failures := 0,
           restart_time := none, acknowledged_failure := false,
           event_descriptions := [(1111, "power event")], alive := true }],
      threads_to_restart := [], servers := ["SERVER1"], retry_delta := 300,
      export_delta := 3600, export_period_start := 0 }
    (by decide) (by decide)).1

/-- **C8.** A configuration path naming a missing or unparseable file makes
`Event_Monitor.__init__` fail with an error in both the package version
(explicit `raise FileNotFoundError`, event_monitor.py lines 24-28) and the
legacy script (the bare `except` only prints, after which the unbound
local `data` raises `NameError`, monitor_events.py lines 23-31); neither
ever reaches the thread-building loop, so monitoring never starts on
partial or default configuration. -/
theorem C8_bad_config_file_is_fatal_at_startup
    (fs : FS) (config_file : String) (now retry_delta export_delta : Nat)
    (hbad : fs config_file = .missing ∨ fs config_file = .unparseable) :
    eventMonitorInit fs config_file now retry_delta export_delta
      = .error "FileNotFoundError"
    ∧ eventMonitorInitLegacy fs config_file now = .error "NameError" := by
  rcases hbad with h | h
  · exact ⟨by unfold eventMonitorInit; rw [h], by unfold eventMonitorInitLegacy; rw [h]⟩
  · exact ⟨by unfold eventMonitorInit; rw [h], by unfold eventMonitorInitLegacy; rw [h]⟩

/-- Witness for C8: a file system with no files at all. -/
theorem C8_bad_config_file_is_fatal_at_startup_witness :
    eventMonitorInit emptyFS "production-config.json" 0 300 3600
      = .error "FileNotFoundError"
    ∧ eventMonitorInitLegacy emptyFS "production-config.json" 0 = .error "NameError" :=
  C8_bad_config_file_is_fatal_at_startup emptyFS "production-config.json" 0 300 3600
    (Or.inl (by decide))

theorem respawn_thread_never_ok_of_bad_config (fs : FS) (t : Monitor_Thread)
    (now delta : Nat)
    (hbad : fs "config.json" = .missing ∨ fs "config.json" = .unparseable
      ∨ (∃ c, fs "config.json" = .parsed c
          ∧ lookupKey t.log_type c.eventDescriptions = none)) :
    ∀ nt, respawn_thread fs t now delta ≠ .ok nt := by
  intro nt h
  unfold respawn_thread monitorThreadInit at h
  rcases hbad with hb | hb | ⟨c, hb, hlk⟩
  · rw [hb] at h
    simp at h
  · rw [hb] at h
    simp at h
  · rw [hb] at h
    simp only [] at h
    rw [hlk] at h
    simp at h

theorem tickPhase1_error_of_dead_member (fs : FS) (now delta : Nat)
    (l : List Monitor_Thread) (t : Monitor_Thread)
    (ht : t ∈ l) (hdead : t.alive = false)
    (hfail : ∀ nt, respawn_thread fs t now delta ≠ .ok nt) :
    ∃ e, tickPhase1 fs now delta l = .error e := by
  induction l with
  | nil => cases ht
  | cons hd tl ih =>
    rcases List.mem_cons.mp ht with rfl | hmem
    · unfold tickPhase1
      rw [hdead]
      simp only [Bool.false_eq_true, if_false]
      cases hresp : respawn_thread fs t now delta with
      | error e => exact ⟨e, rfl⟩
      | ok nt => exact absurd hresp (hfail nt)
    · unfold tickPhase1
      by_cases hal : hd.alive
      · rw [hal]
        simp only [if_true]
        obtain ⟨e, he⟩ := ih hmem
        rw [he]
        exact ⟨e, rfl⟩
      · rw [Bool.not_eq_true] at hal
        rw [hal]
        simp only [Bool.false_eq_true, if_false]
        cases hresp : respawn_thread fs hd now delta with
        | error e => exact ⟨e, rfl⟩
        | ok nt =>
          obtain ⟨e, he⟩ := ih hmem
          rw [he]
          exact ⟨e, rfl⟩

/-- **C10.** Every `Monitor_Thread` construction — respawns included —
reads the fixed name `"config.json"` regardless of the path the
`Event_Monitor` was configured with (the path is not even in scope in
monitor_thread.py line 40): a missing file, unparseable JSON, or a missing
`"Event Descriptions"` entry for the thread's log type raises; the result
depends only on the state of `"config.json"`.  When a respawn inside the
control loop hits this, the exception escapes the tick and the loop's
handler runs the final export and exits, ending monitoring of all
targets. -/
theorem C10_thread_init_reads_fixed_config_json_and_respawn_failure_is_fatal
    (fs fs2 : FS) (now : Nat) (server log_type : String) (event_IDs : List Nat)
    (m : Event_Monitor) (w : WriteResult) :
    (fs "config.json" = .missing →
      monitorThreadInit fs now server log_type event_IDs = .error "FileNotFoundError")
    ∧ (fs "config.json" = .unparseable →
      monitorThreadInit fs now server log_type event_IDs = .error "JSONDecodeError")
    ∧ (∀ c, fs "config.json" = .parsed c →
        lookupKey log_type c.eventDescriptions = none →
        monitorThreadInit fs now server log_type event_IDs = .error "KeyError")
    ∧ (fs "config.json" = fs2 "config.json" →
        monitorThreadInit fs now server log_type event_IDs
          = monitorThreadInit fs2 now server log_type event_IDs)
    ∧ (∀ e, supervisorTick fs now m = .error e →
        runLoopIter fs now w m = .exitAfterFinalExport e (buildExportData now m))
    ∧ (∀ t, t ∈ m.active_threads → t.alive = false →
        (fs "config.json" = .missing ∨ fs "config.json" = .unparseable
          ∨ (∃ c, fs "config.json" = .parsed c
              ∧ lookupKey t.log_type c.eventDescriptions = none)) →
        ∃ e, supervisorTick fs now m = .error e) := by
  refine ⟨?_, ?_, ?_, ?_, ?_, ?_⟩
  · intro h
    unfold monitorThreadInit
    rw [h]
  · intro h
    unfold monitorThreadInit
    rw [h]
  · intro c h hlk
    unfold monitorThreadInit
    rw [h]
    simp only []
    rw [hlk]
  · intro h
    unfold monitorThreadInit
    rw [h]
  · intro e he
    simp only [runLoopIter, he]
  · intro t ht hdead hbad
    obtain ⟨e, he⟩ := tickPhase1_error_of_dead_member fs now m.retry_delta
      m.active_threads t ht hdead
      (respawn_thread_never_ok_of_bad_config fs t now m.retry_delta hbad)
    refine ⟨e, ?_⟩
    unfold supervisorTick
    rw [he]

/-- Witness for C10: `config.json` is missing; a dead worker sits in the
active list; the second file system agrees with the first only at
`"config.json"`. -/
theorem C10_thread_init_reads_fixed_config_json_and_respawn_failure_is_fatal_witness :
    monitorThreadInit emptyFS 0 "SERVER1" "System" [1111] = .error "FileNotFoundError"
    ∧ monitorThreadInit emptyFS 0 "SERVER1" "System" [1111]
        = monitorThreadInit
            (fun name => if name = "the-path-given-to-Event-Monitor.json"
              then .parsed sampleConfig else .missing)
            0 "SERVER1" "System" [1111]
    ∧ (∃ e, supervisorTick emptyFS 50
        { active_threads :=
            [workerDeath
              { server := "SERVER1", log_type := "System", event_IDs := [1111, 2222],
                initial_start_timestamp := 0, latest_start := 0, start_date := 0,
                event_occurrence := [(1111, 1)], times_event_generated := [(1111, [5])],
                total_processed := 1, failure_printed_to_console := false, failures := 0,
                restart_time := none, acknowledged_failure := false,
                event_descriptions := [(1111, "power event")], alive := true }],
          threads_to_restart := [], servers := ["SERVER1"], retry_delta := 300,
          export_delta := 3600, export_period_start := 0 } = .error e) := by
  refine ⟨?_, ?_, ?_⟩
  · exact (C10_thread_init_reads_fixed_config_json_and_respawn_failure_is_fatal
      emptyFS emptyFS 0 "SERVER1" "System" [1111]
      { active_threads := [], threads_to_restart := [], servers := [],
        retry_delta := 0, export_delta := 0, export_period_start := 0 }
      .success).1 (by decide)
  · exact (C10_thread_init_reads_fixed_config_json_and_respawn_failure_is_fatal
      emptyFS
      (fun name => if name = "the-path-given-to-Event-Monitor.json"
        then .parsed sampleConfig else .missing)
      0 "SERVER1" "System" [1111]
      { active_threads := [], threads_to_restart := [], servers := [],
        retry_delta := 0, export_delta := 0, export_period_start := 0 }
      .success).2.2.2.1 (by decide)
  · exact (C10_thread_init_reads_fixed_config_json_and_respawn_failure_is_fatal
      emptyFS emptyFS 50 "SERVER1" "System" [1111]
      { active_threads :=
          [workerDeath
            { server := "SERVER1", log_type := "System", event_IDs := [1111, 2222],
              initial_start_timestamp := 0, latest_start := 0, start_date := 0,
              event_occurrence := [(1111, 1)], times_event_generated := [(1111, [5])],
              total_processed := 1, failure_printed_to_console := false, failures := 0,
              restart_time := none, acknowledged_failure := false,
              event_descriptions := [(1111, "power event")], alive := true }],
        threads_to_restart := [], servers := ["SERVER1"], retry_delta := 300,
        export_delta := 3600, export_period_start := 0 }
      .success).2.2.2.2.2
      (workerDeath
        { server := "SERVER1", log_type := "System", event_IDs := [1111, 2222],
          initial_start_timestamp := 0, latest_start := 0, start_date := 0,
          event_occurrence := [(1111, 1)], times_event_generated := [(1111, [5])],
          total_processed := 1, failure_printed_to_console := false, failures := 0,
          restart_time := none, acknowledged_failure := false,
          event_descriptions := [(1111, "power event")], alive := true })
      (by decide) (by decide) (Or.inl (by decide))

theorem tickPhase1_dead_singleton (fs : FS) (now delta : Nat) (t nt : Monitor_Thread)
    (hdead : t.alive = false) (hresp : respawn_thread fs t now delta = .ok nt) :
    tickPhase1 fs now delta [t]
      = .ok ([{ add_thread_failure t with acknowledged_failure := true }], [nt]) := by
  unfold tickPhase1
  rw [hdead]
  simp only [Bool.false_eq_true, if_false, hresp]
  rfl

theorem tickPhase3_singleton_not_due (now : Nat) (r : Monitor_Thread) (rt : Nat)
    (hpr : r.failure_printed_to_console = true)
    (hrt : r.restart_time = some rt) (hnd : ¬ rt < now) :
    tickPhase3 now [r] = .ok ([], [r]) := by
  unfold tickPhase3
  rw [hpr]
  simp only [if_true, hrt, hnd, if_false]
  rfl

theorem tickPhase3_singleton_fresh_not_due (now : Nat) (r : Monitor_Thread) (rt : Nat)
    (hpr : r.failure_printed_to_console = false)
    (hrt : r.restart_time = some rt) (hnd : ¬ rt < now) :
    tickPhase3 now [r] = .ok ([], [{ r with failure_printed_to_console := true }]) := by
  unfold tickPhase3
  rw [hpr]
  simp only [Bool.false_eq_true, if_false, hrt, hnd]
  rfl

theorem tickPhase3_singleton_due (now : Nat) (r : Monitor_Thread) (rt : Nat)
    (hpr : r.failure_printed_to_console = true)
    (hrt : r.restart_time = some rt) (hdue : rt < now) :
    tickPhase3 now [r] = .ok ([restartedThread r], [restartedThread r]) := by
  unfold tickPhase3
  rw [hpr]
  simp only [if_true, hrt, hdue, if_true]
  rfl

theorem respawn_thread_eval (fs : FS) (w : Monitor_Thread) (T delta : Nat)
    (c : ParsedConfig) (descs : List (Nat × String))
    (hfs : fs "config.json" = .parsed c)
    (hlk : lookupKey w.log_type c.eventDescriptions = some descs) :
    respawn_thread fs (workerDeath w) T delta
      = .ok { pendingReplacement w descs T delta with failure_printed_to_console := false } := by
  unfold respawn_thread monitorThreadInit
  have : (workerDeath w).log_type = w.log_type := rfl
  rw [this]
  simp only [hfs, hlk]
  rfl

theorem supervisorTick_dead_singleton
    (fs : FS) (w : Monitor_Thread) (T delta : Nat) (sv : List String) (ed eps : Nat)
    (c : ParsedConfig) (descs : List (Nat × String))
    (hfs : fs "config.json" = .parsed c)
    (hlk : lookupKey w.log_type c.eventDescriptions = some descs) :
    supervisorTick fs T
      { active_threads := [workerDeath w], threads_to_restart := [], servers := sv,
        retry_delta := delta, export_delta := ed, export_period_start := eps }
      = .ok { active_threads := [],
              threads_to_restart := [pendingReplacement w descs T delta], servers := sv,
              retry_delta := delta, export_delta := ed, export_period_start := eps } := by
  have hnd : ¬ (T + delta < T) := by omega
  unfold supervisorTick
  rw [tickPhase1_dead_singleton fs T delta (workerDeath w) _ rfl
    (respawn_thread_eval fs w T delta c descs hfs hlk)]
  simp only [List.filter, List.nil_append]
  rw [show tickPhase3 T
      [{ pendingReplacement w descs T delta with failure_printed_to_console := false }]
      = .ok ([], [pendingReplacement w descs T delta]) from ?_]
  · simp only [List.filter]
    rfl
  · exact tickPhase3_singleton_fresh_not_due T _ (T + delta) rfl rfl hnd

theorem supervisorTick_pending_waits (fs : FS) (t : Nat) (sv : List String)
    (delta ed eps : Nat) (r : Monitor_Thread) (rt : Nat)
    (hpr : r.failure_printed_to_console = true)
    (hrt : r.restart_time = some rt) (hnd : ¬ rt < t) :
    supervisorTick fs t
      { active_threads := [], threads_to_restart := [r], servers := sv,
        retry_delta := delta, export_delta := ed, export_period_start := eps }
      = .ok { active_threads := [], threads_to_restart := [r], servers := sv,
              retry_delta := delta, export_delta := ed, export_period_start := eps } := by
  unfold supervisorTick
  rw [show tickPhase1 fs t delta [] = .ok ([], []) from rfl]
  simp only [List.append_nil]
  rw [tickPhase3_singleton_not_due t r rt hpr hrt hnd]
  simp only [List.filter, hrt]
  rfl

theorem supervisorTick_pending_restarts (fs : FS) (t : Nat) (sv : List String)
    (delta ed eps : Nat) (r : Monitor_Thread) (rt : Nat)
    (hpr : r.failure_printed_to_console = true)
    (hrt : r.restart_time = some rt) (hdue : rt < t) :
    supervisorTick fs t
      { active_threads := [], threads_to_restart := [r], servers := sv,
        retry_delta := delta, export_delta := ed, export_period_start := eps }
      = .ok { active_threads := [restartedThread r], threads_to_restart := [],
              servers := sv, retry_delta := delta, export_delta := ed,
              export_period_start := eps } := by
  unfold supervisorTick
  rw [show tickPhase1 fs t delta [] = .ok ([], []) from rfl]
  simp only [List.append_nil]
  rw [tickPhase3_singleton_due t r rt hpr hrt hdue]
  rfl

/-- Counterexample for C6: the worker dies and is observed at tick time
T = 100 with retry delta 300 (five minutes in seconds).  At the first tick
at-or-after T + 300 — the tick at exactly 400 — the target is still in the
pending-respawn set and the active set is empty, because the code restarts
only when `_restart_time < now` holds strictly (event_monitor.py line
69). -/
theorem C6_counterexample :
    runTicks sampleFS
      { active_threads :=
          [{ server := "SERVER1", log_type := "System", event_IDs := [1111, 2222],
             initial_start_timestamp := 0, latest_start := 0, start_date := 0,
             event_occurrence := [(1111, 1)], times_event_generated := [(1111, [5])],
             total_processed := 1, failure_printed_to_console := false, failures := 2,
             restart_time := none, acknowledged_failure := false,
             event_descriptions := [(1111, "power event")], alive := true }],
        threads_to_restart := [], servers := ["SERVER1"], retry_delta := 300,
        export_delta := 3600, export_period_start := 0 }
      [⟨fun _ => true, 100⟩, ⟨fun _ => false, 400⟩]
      = .ok
        { active_threads := [],
          threads_to_restart :=
            [{ server := "SERVER1", log_type := "System", event_IDs := [1111, 2222],
               initial_start_timestamp := 0, latest_start := 100, start_date := 0,
               event_occurrence := [(1111, 1)], times_event_generated := [(1111, [5])],
               total_processed := 1, failure_printed_to_console := true, failures := 3,
               restart_time := some 400, acknowledged_failure := false,
               event_descriptions := [(1111, "power event")], alive := false }],
          servers := ["SERVER1"], retry_delta := 300, export_delta := 3600,
          export_period_start := 0 } := by
  decide

/-- **C6 (amended).** A worker death observed at tick time `T` with retry
delta `delta` moves the target into the pending-respawn set as
`pendingReplacement` (restart scheduled for `T + delta`); at every later
tick at a time at-or-before `T + delta` the target remains pending with no
active worker; the first tick strictly after `T + delta` produces an
active worker again, carrying `failureCount` equal to the pre-death value
plus 1 and the counts held at death. -/
theorem C6_pending_until_after_retry_delta_then_respawn
    (fs : FS) (w : Monitor_Thread) (T delta : Nat) (sv : List String) (ed eps : Nat)
    (c : ParsedConfig) (descs : List (Nat × String))
    (hfs : fs "config.json" = .parsed c)
    (hlk : lookupKey w.log_type c.eventDescriptions = some descs) :
    supervisorTick fs T
        { active_threads := [workerDeath w], threads_to_restart := [], servers := sv,
          retry_delta := delta, export_delta := ed, export_period_start := eps }
      = .ok { active_threads := [],
              threads_to_restart := [pendingReplacement w descs T delta], servers := sv,
              retry_delta := delta, export_delta := ed, export_period_start := eps }
    ∧ (∀ ts : List Nat, (∀ x ∈ ts, x ≤ T + delta) →
        runTicks fs
            { active_threads := [],
              threads_to_restart := [pendingReplacement w descs T delta], servers := sv,
              retry_delta := delta, export_delta := ed, export_period_start := eps }
            (ts.map (fun x => ⟨fun _ => false, x⟩))
          = .ok { active_threads := [],
                  threads_to_restart := [pendingReplacement w descs T delta],
                  servers := sv, retry_delta := delta, export_delta := ed,
                  export_period_start := eps })
    ∧ (∀ t2, T + delta < t2 →
        supervisorTick fs t2
            { active_threads := [],
              threads_to_restart := [pendingReplacement w descs T delta], servers := sv,
              retry_delta := delta, export_delta := ed, export_period_start := eps }
          = .ok { active_threads := [restartedThread (pendingReplacement w descs T delta)],
                  threads_to_restart := [], servers := sv, retry_delta := delta,
                  export_delta := ed, export_period_start := eps })
    ∧ (restartedThread (pendingReplacement w descs T delta)).alive = true
    ∧ (restartedThread (pendingReplacement w descs T delta)).failures = w.failures + 1
    ∧ (restartedThread (pendingReplacement w descs T delta)).event_occurrence
        = w.event_occurrence
    ∧ (restartedThread (pendingReplacement w descs T delta)).times_event_generated
        = w.times_event_generated
    ∧ (restartedThread (pendingReplacement w descs T delta)).total_processed
        = w.total_processed := by
  refine ⟨supervisorTick_dead_singleton fs w T delta sv ed eps c descs hfs hlk,
    ?_, ?_, rfl, rfl, rfl, rfl, rfl⟩
  · intro ts
    induction ts with
    | nil => intro _; rfl
    | cons x rest ih =>
      intro hts
      have hx : x ≤ T + delta := hts x (List.mem_cons_self x rest)
      unfold runTicks
      simp only [List.map_cons]
      rw [show envStep (fun _ => false)
          { active_threads := [],
            threads_to_restart := [pendingReplacement w descs T delta], servers := sv,
            retry_delta := delta, export_delta := ed, export_period_start := eps }
          = { active_threads := [],
              threads_to_restart := [pendingReplacement w descs T delta], servers := sv,
              retry_delta := delta, export_delta := ed, export_period_start := eps }
        from rfl]
      rw [supervisorTick_pending_waits fs x sv delta ed eps
        (pendingReplacement w descs T delta) (T + delta) rfl rfl (by omega)]
      exact ih (fun y hy => hts y (List.mem_cons_of_mem x hy))
  · intro t2 ht2
    exact supervisorTick_pending_restarts fs t2 sv delta ed eps
      (pendingReplacement w descs T delta) (T + delta) rfl rfl ht2

/-- Witness for C6 (amended): death observed at tick 100, retry delta 300;
ticks at 250 and 400 leave the target pending; the tick at 401 restarts it
with one more failure. -/
theorem C6_pending_until_after_retry_delta_then_respawn_witness :
    runTicks sampleFS
        { active_threads := [],
          threads_to_restart :=
            [pendingReplacement
              { server := "SERVER1", log_type := "System", event_IDs := [1111, 2222],
                initial_start_timestamp := 0, latest_start := 0, start_date := 0,
                event_occurrence := [(1111, 1)], times_event_generated := [(1111, [5])],
                total_processed := 1, failure_printed_to_console := false, failures := 2,
                restart_time := none, acknowledged_failure := false,
                event_descriptions := [(1111, "power event")], alive := true }
              [(1111, "power event"), (3333, "other event")] 100 300],
          servers := ["SERVER1"], retry_delta := 300, export_delta := 3600,
          export_period_start := 0 }
        ([250, 400].map (fun x => ⟨fun _ => false, x⟩))
      = .ok
        { active_threads := [],
          threads_to_restart :=
            [pendingReplacement
              { server := "SERVER1", log_type := "System", event_IDs := [1111, 2222],
                initial_start_timestamp := 0, latest_start := 0, start_date := 0,
                event_occurrence := [(1111, 1)], times_event_generated := [(1111, [5])],
                total_processed := 1, failure_printed_to_console := false, failures := 2,
                restart_time := none, acknowledged_failure := false,
                event_descriptions := [(1111, "power event")], alive := true }
              [(1111, "power event"), (3333, "other event")] 100 300],
          servers := ["SERVER1"], retry_delta := 300, export_delta := 3600,
          export_period_start := 0 }
    ∧ supervisorTick sampleFS 401
        { active_threads := [],
          threads_to_restart :=
            [pendingReplacement
              { server := "SERVER1", log_type := "System", event_IDs := [1111, 2222],
                initial_start_timestamp := 0, latest_start := 0, start_date := 0,
                event_occurrence := [(1111, 1)], times_event_generated := [(1111, [5])],
                total_processed := 1, failure_printed_to_console := false, failures := 2,
                restart_time := none, acknowledged_failure := false,
                event_descriptions := [(1111, "power event")], alive := true }
              [(1111, "power event"), (3333, "other event")] 100 300],
          servers := ["SERVER1"], retry_delta := 300, export_delta := 3600,
          export_period_start := 0 }
      = .ok
        { active_threads :=
            [restartedThread
              (pendingReplacement
                { server := "SERVER1", log_type := "System", event_IDs := [1111, 2222],
                  initial_start_timestamp := 0, latest_start := 0, start_date := 0,
                  event_occurrence := [(1111, 1)], times_event_generated := [(1111, [5])],
                  total_processed := 1, failure_printed_to_console := false, failures := 2,
                  restart_time := none, acknowledged_failure := false,
                  event_descriptions := [(1111, "power event")], alive := true }
                [(1111, "power event"), (3333, "other event")] 100 300)],
          threads_to_restart := [], servers := ["SERVER1"], retry_delta := 300,
          export_delta := 3600, export_period_start := 0 }
    ∧ (restartedThread
        (pendingReplacement
          { server := "SERVER1", log_type := "System", event_IDs := [1111, 2222],
            initial_start_timestamp := 0, latest_start := 0, start_date := 0,
            event_occurrence := [(1111, 1)], times_event_generated := [(1111, [5])],
            total_processed := 1, failure_printed_to_console := false, failures := 2,
            restart_time := none, acknowledged_failure := false,
            event_descriptions := [(1111, "power event")], alive := true }
          [(1111, "power event"), (3333, "other event")] 100 300)).failures
      = Monitor_Thread.failures
          { server := "SERVER1", log_type := "System", event_IDs := [1111, 2222],
            initial_start_timestamp := 0, latest_start := 0, start_date := 0,
            event_occurrence := [(1111, 1)], times_event_generated := [(1111, [5])],
            total_processed := 1, failure_printed_to_console := false, failures := 2,
            restart_time := none, acknowledged_failure := false,
            event_descriptions := [(1111, "power event")], alive := true } + 1 :=
  ⟨(C6_pending_until_after_retry_delta_then_respawn sampleFS
      { server := "SERVER1", log_type := "System", event_IDs := [1111, 2222],
        initial_start_timestamp := 0, latest_start := 0, start_date := 0,
        event_occurrence := [(1111, 1)], times_event_generated := [(1111, [5])],
        total_processed := 1, failure_printed_to_console := false, failures := 2,
        restart_time := none, acknowledged_failure := false,
        event_descriptions := [(1111, "power event")], alive := true }
      100 300 ["SERVER1"] 3600 0 sampleConfig
      [(1111, "power event"), (3333, "other event")]
      (by decide) (by decide)).2.1 [250, 400] (by decide),
   (C6_pending_until_after_retry_delta_then_respawn sampleFS
      { server := "SERVER1", log_type := "System", event_IDs := [1111, 2222],
        initial_start_timestamp := 0, latest_start := 0, start_date := 0,
        event_occurrence := [(1111, 1)], times_event_generated := [(1111, [5])],
        total_processed := 1, failure_printed_to_console := false, failures := 2,
        restart_time := none, acknowledged_failure := false,
        event_descriptions := [(1111, "power event")], alive := true }
      100 300 ["SERVER1"] 3600 0 sampleConfig
      [(1111, "power event"), (3333, "other event")]
      (by decide) (by decide)).2.2.1 401 (by decide),
   (C6_pending_until_after_retry_delta_then_respawn sampleFS
      { server := "SERVER1", log_type := "System", event_IDs := [1111, 2222],
        initial_start_timestamp := 0, latest_start := 0, start_date := 0,
        event_occurrence := [(1111, 1)], times_event_generated := [(1111, [5])],
        total_processed := 1, failure_printed_to_console := false, failures := 2,
        restart_time := none, acknowledged_failure := false,
        event_descriptions := [(1111, "power event")], alive := true }
      100 300 ["SERVER1"] 3600 0 sampleConfig
      [(1111, "power event"), (3333, "other event")]
      (by decide) (by decide)).2.2.2.2.1⟩

theorem countP_eq_one_of_nodup_mem {α : Type} [DecidableEq α] (l : List α) (k : α)
    (hnd : l.Nodup) (hk : k ∈ l) :
    l.countP (fun x => decide (x = k)) = 1 := by
  induction l with
  | nil => cases hk
  | cons a rest ih =>
    rw [List.countP_cons]
    rcases List.mem_cons.mp hk with rfl | hmem
    · have hnotin : k ∉ rest := (List.nodup_cons.mp hnd).1
      rw [List.countP_eq_zero.mpr (fun x hx => by
        simp only [decide_eq_true_eq]
        intro hxa
        exact hnotin (hxa ▸ hx))]
      simp
    · have hne : ¬ (a = k) := fun hak => (List.nodup_cons.mp hnd).1 (hak ▸ hmem)
      rw [ih (List.nodup_cons.mp hnd).2 hmem]
      simp [hne]

theorem tickPhase1_count (fs : FS) (now delta : Nat) (k : String × String) :
    ∀ (l a p : List Monitor_Thread),
    tickPhase1 fs now delta l = .ok (a, p) →
    (∀ t ∈ l, t.acknowledged_failure = false) →
    ((a.filter (fun t => !t.acknowledged_failure)).countP (fun t => decide (threadKey t = k))
      + p.countP (fun t => decide (threadKey t = k))
      = l.countP (fun t => decide (threadKey t = k))) := by
  intro l
  induction l with
  | nil =>
    intro a p h _
    unfold tickPhase1 at h
    simp only [Except.ok.injEq, Prod.mk.injEq] at h
    rw [← h.1, ← h.2]
    rfl
  | cons hd tl ih =>
    intro a p h hack
    unfold tickPhase1 at h
    by_cases halive : hd.alive
    · rw [if_pos (by rw [halive])] at h
      cases htl : tickPhase1 fs now delta tl with
      | error e => rw [htl] at h; exact absurd h (by simp)
      | ok ap =>
        obtain ⟨a1, p1⟩ := ap
        rw [htl] at h
        simp only [Except.ok.injEq, Prod.mk.injEq] at h
        rw [← h.1, ← h.2]
        have hhd : hd.acknowledged_failure = false := hack hd (List.mem_cons_self hd tl)
        rw [List.filter_cons, if_pos (by rw [hhd]; rfl)]
        rw [List.countP_cons, List.countP_cons]
        have := ih a1 p1 htl (fun t ht => hack t (List.mem_cons_of_mem hd ht))
        omega
    · rw [Bool.not_eq_true] at halive
      rw [if_neg (by rw [halive]; simp)] at h
      cases hresp : respawn_thread fs hd now delta with
      | error e => rw [hresp] at h; exact absurd h (by simp)
      | ok nt =>
        rw [hresp] at h
        cases htl : tickPhase1 fs now delta tl with
        | error e => rw [htl] at h; exact absurd h (by simp)
        | ok ap =>
          obtain ⟨a1, p1⟩ := ap
          rw [htl] at h
          simp only [Except.ok.injEq, Prod.mk.injEq] at h
          rw [← h.1, ← h.2]
          rw [List.filter_cons]
          rw [if_neg (by simp)]
          rw [List.countP_cons, List.countP_cons]
          have hkey : threadKey nt = threadKey hd := by
            obtain ⟨_, _, _, _, _, _, _, _, hsv, hlg, _⟩ :=
              respawn_thread_ok_fields fs hd now delta nt hresp
            unfold threadKey
            rw [hsv, hlg]
          rw [hkey]
          have := ih a1 p1 htl (fun t ht => hack t (List.mem_cons_of_mem hd ht))
          omega

theorem tickPhase1_out_props (fs : FS) (now delta : Nat) :
    ∀ (l a p : List Monitor_Thread),
    tickPhase1 fs now delta l = .ok (a, p) →
    ((∀ x ∈ a, ∃ s ∈ l, threadKey x = threadKey s)
      ∧ (∀ x ∈ p, (∃ s ∈ l, threadKey x = threadKey s)
          ∧ x.acknowledged_failure = false
          ∧ x.restart_time = some (now + delta))) := by
  intro l
  induction l with
  | nil =>
    intro a p h
    unfold tickPhase1 at h
    simp only [Except.ok.injEq, Prod.mk.injEq] at h
    rw [← h.1, ← h.2]
    exact ⟨fun x hx => absurd hx (List.not_mem_nil x),
           fun x hx => absurd hx (List.not_mem_nil x)⟩
  | cons hd tl ih =>
    intro a p h
    unfold tickPhase1 at h
    by_cases halive : hd.alive
    · rw [if_pos (by rw [halive])] at h
      cases htl : tickPhase1 fs now delta tl with
      | error e => rw [htl] at h; exact absurd h (by simp)
      | ok ap =>
        obtain ⟨a1, p1⟩ := ap
        rw [htl] at h
        simp only [Except.ok.injEq, Prod.mk.injEq] at h
        rw [← h.1, ← h.2]
        obtain ⟨iha, ihp⟩ := ih a1 p1 htl
        refine ⟨fun x hx => ?_, fun x hx => ?_⟩
        · rcases List.mem_cons.mp hx with rfl | hmem
          · exact ⟨x, List.mem_cons_self x tl, rfl⟩
          · obtain ⟨s, hs, hks⟩ := iha x hmem
            exact ⟨s, List.mem_cons_of_mem hd hs, hks⟩
        · obtain ⟨⟨s, hs, hks⟩, hackx, hrtx⟩ := ihp x hx
          exact ⟨⟨s, List.mem_cons_of_mem hd hs, hks⟩, hackx, hrtx⟩
    · rw [Bool.not_eq_true] at halive
      rw [if_neg (by rw [halive]; simp)] at h
      cases hresp : respawn_thread fs hd now delta with
      | error e => rw [hresp] at h; exact absurd h (by simp)
      | ok nt =>
        rw [hresp] at h
        cases htl : tickPhase1 fs now delta tl with
        | error e => rw [htl] at h; exact absurd h (by simp)
        | ok ap =>
          obtain ⟨a1, p1⟩ := ap
          rw [htl] at h
          simp only [Except.ok.injEq, Prod.mk.injEq] at h
          rw [← h.1, ← h.2]
          obtain ⟨iha, ihp⟩ := ih a1 p1 htl
          obtain ⟨_, _, _, _, _, _, _, hrtn, hsv, hlg, _, hackn, _, _⟩ :=
            respawn_thread_ok_fields fs hd now delta nt hresp
          refine ⟨fun x hx => ?_, fun x hx => ?_⟩
          · rcases List.mem_cons.mp hx with rfl | hmem
            · exact ⟨hd, List.mem_cons_self hd tl, rfl⟩
            · obtain ⟨s, hs, hks⟩ := iha x hmem
              exact ⟨s, List.mem_cons_of_mem hd hs, hks⟩
          · rcases List.mem_cons.mp hx with rfl | hmem
            · refine ⟨⟨hd, List.mem_cons_self hd tl, ?_⟩, hackn, hrtn⟩
              unfold threadKey
              rw [hsv, hlg]
            · obtain ⟨⟨s, hs, hks⟩, hackx, hrtx⟩ := ihp x hmem
              exact ⟨⟨s, List.mem_cons_of_mem hd hs, hks⟩, hackx, hrtx⟩

theorem noticeFlagged_restart_time (r : Monitor_Thread) :
    (noticeFlagged r).restart_time = r.restart_time := by
  unfold noticeFlagged
  by_cases h : r.failure_printed_to_console <;> simp [h]

theorem noticeFlagged_threadKey (r : Monitor_Thread) :
    threadKey (noticeFlagged r) = threadKey r := by
  unfold noticeFlagged
  by_cases h : r.failure_printed_to_console <;> simp [h, threadKey]

theorem noticeFlagged_ack (r : Monitor_Thread) :
    (noticeFlagged r).acknowledged_failure = r.acknowledged_failure := by
  unfold noticeFlagged
  by_cases h : r.failure_printed_to_console <;> simp [h]

theorem tickPhase3_cons_none (now : Nat) (hd : Monitor_Thread)
    (tl : List Monitor_Thread) (hrt : hd.restart_time = none) :
    tickPhase3 now (hd :: tl) = .error "TypeError" := by
  unfold tickPhase3
  by_cases hpr : hd.failure_printed_to_console <;>
    simp [hpr, hrt]

theorem tickPhase3_cons_wait (now : Nat) (hd : Monitor_Thread)
    (tl : List Monitor_Thread) (rt : Nat)
    (hrt : hd.restart_time = some rt) (hnd : ¬ rt < now) :
    tickPhase3 now (hd :: tl)
      = match tickPhase3 now tl with
        | .error e => .error e
        | .ok (app, pend) => .ok (app, noticeFlagged hd :: pend) := by
  cases htl : tickPhase3 now tl with
  | error e =>
    unfold tickPhase3
    by_cases hpr : hd.failure_printed_to_console <;>
      simp [hpr, hrt, hnd, htl]
  | ok ap =>
    obtain ⟨app, pend⟩ := ap
    unfold tickPhase3 noticeFlagged
    by_cases hpr : hd.failure_printed_to_console <;>
      simp [hpr, hrt, hnd, htl]

theorem tickPhase3_cons_due (now : Nat) (hd : Monitor_Thread)
    (tl : List Monitor_Thread) (rt : Nat)
    (hrt : hd.restart_time = some rt) (hdue : rt < now) :
    tickPhase3 now (hd :: tl)
      = match tickPhase3 now tl with
        | .error e => .error e
        | .ok (app, pend) => .ok (restartedThread hd :: app, restartedThread hd :: pend) := by
  cases htl : tickPhase3 now tl with
  | error e =>
    unfold tickPhase3
    by_cases hpr : hd.failure_printed_to_console <;>
      simp [hpr, hrt, hdue, htl]
  | ok ap =>
    obtain ⟨app, pend⟩ := ap
    unfold tickPhase3 restartedThread
    by_cases hpr : hd.failure_printed_to_console <;>
      simp [hpr, hrt, hdue, htl]

theorem tickPhase3_count (now : Nat) (k : String × String) :
    ∀ (l app pend : List Monitor_Thread),
    tickPhase3 now l = .ok (app, pend) →
    (app.countP (fun t => decide (threadKey t = k))
      + (pend.filter (fun t => t.restart_time != none)).countP
          (fun t => decide (threadKey t = k))
      = l.countP (fun t => decide (threadKey t = k))) := by
  intro l
  induction l with
  | nil =>
    intro app pend h
    unfold tickPhase3 at h
    simp only [Except.ok.injEq, Prod.mk.injEq] at h
    rw [← h.1, ← h.2]
    rfl
  | cons hd tl ih =>
    intro app pend h
    cases hrt : hd.restart_time with
    | none =>
      rw [tickPhase3_cons_none now hd tl hrt] at h
      exact absurd h (by simp)
    | some rt =>
      by_cases hdue : rt < now
      · rw [tickPhase3_cons_due now hd tl rt hrt hdue] at h
        cases htl : tickPhase3 now tl with
        | error e => rw [htl] at h; exact absurd h (by simp)
        | ok ap =>
          obtain ⟨app1, pend1⟩ := ap
          rw [htl] at h
          simp only [Except.ok.injEq, Prod.mk.injEq] at h
          rw [← h.1, ← h.2]
          rw [List.filter_cons]
          rw [show ((restartedThread hd).restart_time != none) = false from rfl]
          simp only [Bool.false_eq_true, if_false, List.countP_cons]
          rw [show decide (threadKey (restartedThread hd) = k)
            = decide (threadKey hd = k) from rfl]
          have := ih app1 pend1 htl
          omega
      · rw [tickPhase3_cons_wait now hd tl rt hrt hdue] at h
        cases htl : tickPhase3 now tl with
        | error e => rw [htl] at h; exact absurd h (by simp)
        | ok ap =>
          obtain ⟨app1, pend1⟩ := ap
          rw [htl] at h
          simp only [Except.ok.injEq, Prod.mk.injEq] at h
          rw [← h.1, ← h.2]
          rw [List.filter_cons]
          rw [show ((noticeFlagged hd).restart_time != none) = true from by
            rw [noticeFlagged_restart_time, hrt]; rfl]
          simp only [if_true, List.countP_cons]
          rw [show decide (threadKey (noticeFlagged hd) = k)
            = decide (threadKey hd = k) from by rw [noticeFlagged_threadKey]]
          have := ih app1 pend1 htl
          omega

theorem tickPhase3_out_props (now : Nat) :
    ∀ (l app pend : List Monitor_Thread),
    tickPhase3 now l = .ok (app, pend) →
    (∀ x ∈ app ++ pend, ∃ s ∈ l, threadKey x = threadKey s
      ∧ x.acknowledged_failure = s.acknowledged_failure) := by
  intro l
  induction l with
  | nil =>
    intro app pend h
    unfold tickPhase3 at h
    simp only [Except.ok.injEq, Prod.mk.injEq] at h
    rw [← h.1, ← h.2]
    intro x hx
    exact absurd hx (List.not_mem_nil x)
  | cons hd tl ih =>
    intro app pend h
    cases hrt : hd.restart_time with
    | none =>
      rw [tickPhase3_cons_none now hd tl hrt] at h
      exact absurd h (by simp)
    | some rt =>
      by_cases hdue : rt < now
      · rw [tickPhase3_cons_due now hd tl rt hrt hdue] at h
        cases htl : tickPhase3 now tl with
        | error e => rw [htl] at h; exact absurd h (by simp)
        | ok ap =>
          obtain ⟨app1, pend1⟩ := ap
          rw [htl] at h
          simp only [Except.ok.injEq, Prod.mk.injEq] at h
          rw [← h.1, ← h.2]
          intro x hx
          rcases List.mem_append.mp hx with hx1 | hx2
          · rcases List.mem_cons.mp hx1 with rfl | hmem
            · exact ⟨hd, List.mem_cons_self hd tl, rfl, rfl⟩
            · obtain ⟨s, hs, hp⟩ := ih app1 pend1 htl x (List.mem_append.mpr (Or.inl hmem))
              exact ⟨s, List.mem_cons_of_mem hd hs, hp⟩
          · rcases List.mem_cons.mp hx2 with rfl | hmem
            · exact ⟨hd, List.mem_cons_self hd tl, rfl, rfl⟩
            · obtain ⟨s, hs, hp⟩ := ih app1 pend1 htl x (List.mem_append.mpr (Or.inr hmem))
              exact ⟨s, List.mem_cons_of_mem hd hs, hp⟩
      · rw [tickPhase3_cons_wait now hd tl rt hrt hdue] at h
        cases htl : tickPhase3 now tl with
        | error e => rw [htl] at h; exact absurd h (by simp)
        | ok ap =>
          obtain ⟨app1, pend1⟩ := ap
          rw [htl] at h
          simp only [Except.ok.injEq, Prod.mk.injEq] at h
          rw [← h.1, ← h.2]
          intro x hx
          rcases List.mem_append.mp hx with hx1 | hx2
          · obtain ⟨s, hs, hp⟩ := ih app1 pend1 htl x (List.mem_append.mpr (Or.inl hx1))
            exact ⟨s, List.mem_cons_of_mem hd hs, hp⟩
          · rcases List.mem_cons.mp hx2 with rfl | hmem
            · exact ⟨hd, List.mem_cons_self hd tl,
                noticeFlagged_threadKey hd, noticeFlagged_ack hd⟩
            · obtain ⟨s, hs, hp⟩ := ih app1 pend1 htl x (List.mem_append.mpr (Or.inr hmem))
              exact ⟨s, List.mem_cons_of_mem hd hs, hp⟩

theorem handleInvariant_tick
    (targets : List (String × String)) (fs : FS) (now : Nat)
    (m mNext : Event_Monitor)
    (hinv : handleInvariant targets m)
    (htick : supervisorTick fs now m = .ok mNext) :
    handleInvariant targets mNext := by
  obtain ⟨hcnt, hmem, hackA, hackP, hrtP⟩ := hinv
  simp only [supervisorTick] at htick
  cases h1 : tickPhase1 fs now m.retry_delta m.active_threads with
  | error e => rw [h1] at htick; exact absurd htick (by simp)
  | ok ap =>
    obtain ⟨a1, newPend⟩ := ap
    rw [h1] at htick
    simp only [] at htick
    cases h3 : tickPhase3 now (m.threads_to_restart ++ newPend) with
    | error e => rw [h3] at htick; exact absurd htick (by simp)
    | ok ap3 =>
      obtain ⟨appends, pend2⟩ := ap3
      rw [h3] at htick
      simp only [Except.ok.injEq] at htick
      subst htick
      obtain ⟨hp1a, hp1p⟩ :=
        tickPhase1_out_props fs now m.retry_delta m.active_threads a1 newPend h1
      have hp3 := tickPhase3_out_props now (m.threads_to_restart ++ newPend) appends pend2 h3
      have hsrcPend : ∀ s ∈ m.threads_to_restart ++ newPend, threadKey s ∈ targets := by
        intro s hs
        rcases List.mem_append.mp hs with hs1 | hs2
        · exact hmem s (List.mem_append.mpr (Or.inr hs1))
        · obtain ⟨⟨s2, hs2m, hk2⟩, _, _⟩ := hp1p s hs2
          rw [hk2]
          exact hmem s2 (List.mem_append.mpr (Or.inl hs2m))
      have hsrcPendAck : ∀ s ∈ m.threads_to_restart ++ newPend,
          s.acknowledged_failure = false := by
        intro s hs
        rcases List.mem_append.mp hs with hs1 | hs2
        · exact hackP s hs1
        · exact (hp1p s hs2).2.1
      refine ⟨?_, ?_, ?_, ?_, ?_⟩
      · intro k hk
        rw [← List.countP_eq_length_filter]
        simp only [List.countP_append]
        have e1 := tickPhase1_count fs now m.retry_delta k m.active_threads a1 newPend h1 hackA
        have e3 := tickPhase3_count now k (m.threads_to_restart ++ newPend) appends pend2 h3
        rw [List.countP_append] at e3
        have e0 := hcnt k hk
        rw [← List.countP_eq_length_filter, List.countP_append] at e0
        omega
      · intro t ht
        rcases List.mem_append.mp ht with ht1 | ht2
        · rcases List.mem_append.mp ht1 with ht1a | ht1b
          · obtain ⟨s, hsm, hks⟩ := hp1a t (List.mem_filter.mp ht1a).1
            rw [hks]
            exact hmem s (List.mem_append.mpr (Or.inl hsm))
          · obtain ⟨s, hsm, hks, _⟩ := hp3 t (List.mem_append.mpr (Or.inl ht1b))
            rw [hks]
            exact hsrcPend s hsm
        · obtain ⟨s, hsm, hks, _⟩ := hp3 t
            (List.mem_append.mpr (Or.inr (List.mem_filter.mp ht2).1))
          rw [hks]
          exact hsrcPend s hsm
      · intro t ht
        rcases List.mem_append.mp ht with ht1a | ht1b
        · have := (List.mem_filter.mp ht1a).2
          simp only [Bool.not_eq_true'] at this
          exact this
        · obtain ⟨s, hsm, _, hack⟩ := hp3 t (List.mem_append.mpr (Or.inl ht1b))
          rw [hack]
          exact hsrcPendAck s hsm
      · intro t ht
        obtain ⟨s, hsm, _, hack⟩ := hp3 t
          (List.mem_append.mpr (Or.inr (List.mem_filter.mp ht).1))
        rw [hack]
        exact hsrcPendAck s hsm
      · intro t ht
        have := (List.mem_filter.mp ht).2
        intro hnone
        rw [hnone] at this
        exact absurd this (by simp)

theorem envStep_kill_key (sel : Monitor_Thread → Bool) (t : Monitor_Thread) :
    threadKey (if sel t then workerDeath t else t) = threadKey t := by
  by_cases h : sel t <;> simp [h, workerDeath, add_thread_failure, threadKey]

theorem envStep_kill_ack (sel : Monitor_Thread → Bool) (t : Monitor_Thread) :
    (if sel t then workerDeath t else t).acknowledged_failure
      = t.acknowledged_failure := by
  by_cases h : sel t <;> simp [h, workerDeath, add_thread_failure]

theorem handleInvariant_envStep (targets : List (String × String))
    (sel : Monitor_Thread → Bool) (m : Event_Monitor)
    (hinv : handleInvariant targets m) :
    handleInvariant targets (envStep sel m) := by
  obtain ⟨hcnt, hmem, hackA, hackP, hrtP⟩ := hinv
  unfold envStep
  refine ⟨?_, ?_, ?_, ?_, ?_⟩
  · intro k hk
    rw [← List.countP_eq_length_filter, List.countP_append, List.countP_map]
    have hfun : ((fun t => decide (threadKey t = k)) ∘
        (fun t => if sel t then workerDeath t else t))
        = (fun t : Monitor_Thread => decide (threadKey t = k)) :=
      funext fun t => by simp [Function.comp, envStep_kill_key sel t]
    rw [hfun]
    have e0 := hcnt k hk
    rw [← List.countP_eq_length_filter, List.countP_append] at e0
    exact e0
  · intro t ht
    rcases List.mem_append.mp ht with ht1 | ht2
    · obtain ⟨s, hsm, rfl⟩ := List.mem_map.mp ht1
      rw [envStep_kill_key sel s]
      exact hmem s (List.mem_append.mpr (Or.inl hsm))
    · exact hmem t (List.mem_append.mpr (Or.inr ht2))
  · intro t ht
    obtain ⟨s, hsm, rfl⟩ := List.mem_map.mp ht
    rw [envStep_kill_ack sel s]
    exact hackA s hsm
  · exact hackP
  · exact hrtP

theorem buildServerThreads_props (fs : FS) (now : Nat) (server : String) :
    ∀ (logs : List (String × List Nat)) (ts : List Monitor_Thread),
    buildThreads.buildServerThreads fs now server logs = .ok ts →
    (ts.map threadKey = logs.map (fun q => (server, q.1))
      ∧ ∀ t ∈ ts, t.acknowledged_failure = false ∧ t.restart_time = none) := by
  intro logs
  induction logs with
  | nil =>
    intro ts h
    unfold buildThreads.buildServerThreads at h
    simp only [Except.ok.injEq] at h
    rw [← h]
    exact ⟨rfl, fun t ht => absurd ht (List.not_mem_nil t)⟩
  | cons hd tl ih =>
    intro ts h
    obtain ⟨log_type, event_IDs⟩ := hd
    unfold buildThreads.buildServerThreads at h
    cases hinit : monitorThreadInit fs now server log_type event_IDs with
    | error e => rw [hinit] at h; exact absurd h (by simp)
    | ok t0 =>
      rw [hinit] at h
      cases hrest : buildThreads.buildServerThreads fs now server tl with
      | error e => rw [hrest] at h; exact absurd h (by simp)
      | ok more =>
        rw [hrest] at h
        simp only [Except.ok.injEq] at h
        rw [← h]
        obtain ⟨c, descs, _, _, ht0⟩ :=
          (monitorThreadInit_ok_iff fs now server log_type event_IDs t0).mp hinit
        obtain ⟨ihmap, ihprops⟩ := ih more hrest
        constructor
        · rw [List.map_cons, ihmap, ht0]
          rfl
        · intro t ht
          rcases List.mem_cons.mp ht with rfl | hmem
          · rw [ht0]
            exact ⟨rfl, rfl⟩
          · exact ihprops t hmem

theorem buildThreads_props (fs : FS) (now : Nat) :
    ∀ (srv : List (String × List (String × List Nat))) (threads : List Monitor_Thread),
    buildThreads fs now srv = .ok threads →
    (threads.map threadKey
        = srv.flatMap (fun p => p.2.map (fun q => (p.1, q.1)))
      ∧ ∀ t ∈ threads, t.acknowledged_failure = false ∧ t.restart_time = none) := by
  intro srv
  induction srv with
  | nil =>
    intro threads h
    unfold buildThreads at h
    simp only [Except.ok.injEq] at h
    rw [← h]
    exact ⟨rfl, fun t ht => absurd ht (List.not_mem_nil t)⟩
  | cons hd tl ih =>
    intro threads h
    obtain ⟨server, logs⟩ := hd
    unfold buildThreads at h
    cases hsrv : buildThreads.buildServerThreads fs now server logs with
    | error e => rw [hsrv] at h; exact absurd h (by simp)
    | ok ts =>
      rw [hsrv] at h
      cases hrest : buildThreads fs now tl with
      | error e => rw [hrest] at h; exact absurd h (by simp)
      | ok more =>
        rw [hrest] at h
        simp only [Except.ok.injEq] at h
        rw [← h]
        obtain ⟨hmap1, hprops1⟩ := buildServerThreads_props fs now server logs ts hsrv
        obtain ⟨hmap2, hprops2⟩ := ih more hrest
        constructor
        · rw [List.map_append, hmap1, hmap2, List.flatMap_cons]
        · intro t ht
          rcases List.mem_append.mp ht with hm1 | hm2
          · exact hprops1 t hm1
          · exact hprops2 t hm2

theorem handleInvariant_init (fs : FS) (config_file : String)
    (now retry_delta export_delta : Nat) (data : ParsedConfig) (m : Event_Monitor)
    (hcf : fs config_file = .parsed data)
    (hinit : eventMonitorInit fs config_file now retry_delta export_delta = .ok m)
    (hnodup : (configTargets data).Nodup) :
    handleInvariant (configTargets data) (startAllThreads m) := by
  simp only [eventMonitorInit, hcf] at hinit
  cases hb : buildThreads fs now data.servers with
  | error e => rw [hb] at hinit; exact absurd hinit (by simp)
  | ok threads =>
    rw [hb] at hinit
    simp only [Except.ok.injEq] at hinit
    obtain ⟨hmap, hprops⟩ := buildThreads_props fs now data.servers threads hb
    have hkeys : threads.map threadKey = configTargets data := hmap
    subst hinit
    unfold startAllThreads
    refine ⟨?_, ?_, ?_, ?_, ?_⟩
    · intro k hk
      rw [← List.countP_eq_length_filter, List.countP_append, List.countP_map]
      have hfun : ((fun t => decide (threadKey t = k)) ∘ startThread)
          = (fun t : Monitor_Thread => decide (threadKey t = k)) :=
        funext fun t => by simp [Function.comp, startThread, threadKey]
      rw [hfun]
      have : threads.countP (fun t => decide (threadKey t = k))
          = (threads.map threadKey).countP (fun s => decide (s = k)) := by
        rw [List.countP_map]
        rfl
      rw [show (List.countP (fun t => decide (threadKey t = k)) threads : Nat)
          = (threads.map threadKey).countP (fun s => decide (s = k)) from this]
      rw [hkeys]
      rw [countP_eq_one_of_nodup_mem (configTargets data) k hnodup hk]
      rfl
    · intro t ht
      rcases List.mem_append.mp ht with ht1 | ht2
      · obtain ⟨s, hsm, rfl⟩ := List.mem_map.mp ht1
        have : threadKey (startThread s) = threadKey s := rfl
        rw [this, ← hkeys]
        exact List.mem_map.mpr ⟨s, hsm, rfl⟩
      · exact absurd ht2 (List.not_mem_nil t)
    · intro t ht
      obtain ⟨s, hsm, rfl⟩ := List.mem_map.mp ht
      have : (startThread s).acknowledged_failure = s.acknowledged_failure := rfl
      rw [this]
      exact (hprops s hsm).1
    · intro t ht
      exact absurd ht (List.not_mem_nil t)
    · intro t ht
      exact absurd ht (List.not_mem_nil t)

/-- **C5.** Starting from the state `Event_Monitor.run` builds from a
parsed configuration (one started thread per configured (host, logName)
pair, JSON object keys being unique), after any sequence of
environment-death-then-control-loop-tick rounds, every configured target
is represented by exactly one handle across the active and
pending-respawn lists combined — never zero and never two — together with
the loop's bookkeeping invariants. -/
theorem C5_exactly_one_current_handle_per_target
    (fs : FS) (config_file : String) (now retry_delta export_delta : Nat)
    (data : ParsedConfig) (m0 mFinal : Event_Monitor) (steps : List TickInput)
    (hcf : fs config_file = .parsed data)
    (hinit : eventMonitorInit fs config_file now retry_delta export_delta = .ok m0)
    (hnodup : (configTargets data).Nodup)
    (hrun : runTicks fs (startAllThreads m0) steps = .ok mFinal) :
    handleInvariant (configTargets data) mFinal := by
  have hstart := handleInvariant_init fs config_file now retry_delta export_delta
    data m0 hcf hinit hnodup
  have main : ∀ (ss : List TickInput) (mc mf : Event_Monitor),
      handleInvariant (configTargets data) mc →
      runTicks fs mc ss = .ok mf →
      handleInvariant (configTargets data) mf := by
    intro ss
    induction ss with
    | nil =>
      intro mc mf hi hr
      unfold runTicks at hr
      simp only [Except.ok.injEq] at hr
      rw [← hr]
      exact hi
    | cons i rest ih =>
      intro mc mf hi hr
      unfold runTicks at hr
      cases ht : supervisorTick fs i.now (envStep i.killSel mc) with
      | error e => rw [ht] at hr; exact absurd hr (by simp)
      | ok m1 =>
        rw [ht] at hr
        exact ih m1 mf
          (handleInvariant_tick (configTargets data) fs i.now _ m1
            (handleInvariant_envStep (configTargets data) i.killSel mc hi) ht)
          hr
  exact main steps (startAllThreads m0) mFinal hstart hrun

/-- Witness for C5: one configured target; its worker is killed at tick
100 and respawned at tick 401; the invariant holds on the resulting
state. -/
theorem C5_exactly_one_current_handle_per_target_witness :
    handleInvariant (configTargets sampleConfig)
      { active_threads :=
          [{ server := "SERVER1", log_type := "System", event_IDs := [1111, 2222],
             initial_start_timestamp := 0, latest_start := 100, start_date := 0,
             event_occurrence := [], times_event_generated := [], total_processed := 0,
             failure_printed_to_console := false, failures := 1, restart_time := none,
             acknowledged_failure := false,
             event_descriptions := [(1111, "power event")], alive := true }],
        threads_to_restart := [], servers := ["SERVER1"], retry_delta := 300,
        export_delta := 3600, export_period_start := 0 } :=
  C5_exactly_one_current_handle_per_target sampleFS "config.json" 0 300 3600
    sampleConfig
    { active_threads :=
        [{ server := "SERVER1", log_type := "System", event_IDs := [1111, 2222],
           initial_start_timestamp := 0, latest_start := 0, start_date := 0,
           event_occurrence := [], times_event_generated := [], total_processed := 0,
           failure_printed_to_console := false, failures := 0, restart_time := none,
           acknowledged_failure := false,
           event_descriptions := [(1111, "power event")], alive := false }],
      threads_to_restart := [], servers := ["SERVER1"], retry_delta := 300,
      export_delta := 3600, export_period_start := 0 }
    _ [⟨fun _ => true, 100⟩, ⟨fun _ => false, 401⟩]
    (by decide) (by decide) (by decide) (by decide)
